import Mathlib

/-!
WineGUI: signal controller and bottle edit window.

A shallow embedding of `src/src/signal_controller.cc` (the bridge between the GUI
event loop and the single worker thread) and of `BottleEditWindow::show` and
`BottleEditWindow::on_save_button_clicked` in `src/src/bottle_edit_window.cc`.

Stateful C++ is written as explicit state passing.  Everything a member function
does to a collaborator (main window, edit window, manager, menu, thread library)
is appended to `State.trace` in program order; a `Glib::Dispatcher::emit` is
appended to `State.pending`, the queue the GUI main loop later delivers from.
-/

namespace WineGUI

/-! ## Collaborator data -/

/-- The four `Glib::Dispatcher` members of `SignalController`. -/
inductive Dispatcher where
  | bottle_created
  | bottle_updated
  | error_message_created
  | error_message_updated
  deriving DecidableEq, Repr

/-- Arguments of `SignalController::on_new_bottle`, captured by value in the thread lambda.
The `BottleTypes` enums are kept as their integer values. -/
structure NewBottleArgs where
  name : String
  windows_version : Int
  bit : Int
  virtual_desktop_resolution : String
  disable_geck_mono : Bool
  audio : Int
  deriving DecidableEq, Repr

/-- The `UpdateBottleStruct` read field by field in `SignalController::on_update_bottle`. -/
structure UpdateBottleStruct where
  name : String
  folder_name : String
  description : String
  windows_version : Int
  virtual_desktop_resolution : String
  audio : Int
  is_debug_logging : Bool
  debug_log_level : Int
  deriving DecidableEq, Repr

/-- The body of the lambda handed to `new std::thread` (lines 256-258 and 276-280). -/
inductive Task where
  | new_bottle (a : NewBottleArgs)
  | update_bottle (u : UpdateBottleStruct)
  deriving DecidableEq, Repr

/-- A `std::thread` object as held through `thread_bottle_manager_`. -/
structure Thread where
  id : Nat
  joinable : Bool
  deriving DecidableEq, Repr

/-- A thread of execution started by `new std::thread`.  `signalled` says the task has run
to its end (and so has signalled its notifier); `joined` says `join()` has returned for it. -/
structure Worker where
  id : Nat
  task : Task
  signalled : Bool
  joined : Bool
  deriving DecidableEq, Repr

/-- One queued `Glib::Dispatcher::emit`.  `origin` is bookkeeping only: the worker whose task
made the call, or `none` when the controller itself emitted on the GUI thread. -/
structure Notification where
  kind : Dispatcher
  origin : Option Nat
  deriving DecidableEq, Repr

/-- Calls made on collaborators, in program order. -/
inductive Effect where
  | show_error_message (message : String)
  | main_window_on_new_bottle_created
  | busy_dialog_hide
  | edit_window_hide
  | update_config_and_bottles (select_first : Bool)
  | thread_new (id : Nat) (task : Task)
  | thread_join (id : Nat) (waited : Bool)
  | thread_delete (id : Nat)
  | menu_popup (button : Nat) (time : Nat)
  deriving DecidableEq, Repr

/-- Ways a member function can fail to return. -/
inductive Fault where
  | null_main_window
  | g_error
  deriving DecidableEq, Repr

/-- Modelled from the spec: `BottleManager` is not among the sources.  The spec gives the
bottle store as `create(spec) -> Result<void, Error>` and `update(record) -> Result<void, Error>`
and the `ErrorMessage` as a string written by a failing task and read by the GUI thread;
`none` is success and `some text` a failure with that error text. -/
structure BottleManager where
  new_bottle : NewBottleArgs → Option String
  update_bottle : UpdateBottleStruct → Option String
  error_message : String

/-- Model of `BottleManager::get_error_message`. -/
def BottleManager.get_error_message (m : BottleManager) : String :=
  m.error_message

/-- The members of `SignalController` that its code reads or writes, with the queue of
emitted notifications, the threads started so far and the trace of collaborator calls. -/
structure State where
  main_window_ : Option Nat
  thread_bottle_manager_ : Option Thread
  manager_ : BottleManager
  machine_menu : Option Nat
  workers : List Worker
  pending : List Notification
  trace : List Effect

/-- The text passed to `show_error_message` at lines 249 and 269. -/
def busy_message : String :=
  "There is already running a thread. Please wait..."

namespace SignalController

/-- The constructor (lines 36-54): no main window, no thread. -/
def fresh (manager : BottleManager) (machine_menu : Option Nat) : State :=
  { main_window_ := none
    thread_bottle_manager_ := none
    manager_ := manager
    machine_menu := machine_menu
    workers := []
    pending := []
    trace := [] }

/-- Model of `SignalController::set_main_window` (lines 68-78). -/
def set_main_window (s : State) (main_window : Option Nat) : Except Fault State :=
  match s.main_window_ with
  | none => .ok { s with main_window_ := main_window }
  | some _ => .error Fault.g_error

/-- Model of `Glib::Dispatcher::emit`: queue one notification for the GUI main loop. -/
def emit (d : Dispatcher) (origin : Option Nat) (s : State) : State :=
  { s with pending := s.pending ++ [⟨d, origin⟩] }

/-- Model of `main_window_->show_error_message(message)`. -/
def show_error_message (message : String) (s : State) : Except Fault State :=
  match s.main_window_ with
  | none => .error Fault.null_main_window
  | some _ => .ok { s with trace := s.trace ++ [Effect.show_error_message message] }

/-- Model of `SignalController::signal_bottle_created` (lines 167-170), called from thread
`caller`. -/
def signal_bottle_created (caller : Nat) (s : State) : State :=
  emit Dispatcher.bottle_created (some caller) s

/-- Model of `SignalController::signal_bottle_updated` (lines 177-180), called from thread
`caller`. -/
def signal_bottle_updated (caller : Nat) (s : State) : State :=
  emit Dispatcher.bottle_updated (some caller) s

/-- Model of `SignalController::signal_error_message_during_create` (lines 186-190). -/
def signal_error_message_during_create (caller : Nat) (s : State) : State :=
  emit Dispatcher.error_message_created (some caller) s

/-- Model of `SignalController::signal_error_message_during_update` (lines 196-200). -/
def signal_error_message_during_update (caller : Nat) (s : State) : State :=
  emit Dispatcher.error_message_updated (some caller) s

/-- Modelled from the spec: the bodies of `BottleManager::new_bottle` and
`BottleManager::update_bottle` are not among the sources.  Per the spec a task "writes
ErrorMessage (failure) or nothing (success)" and then "signals the corresponding notifier",
exactly once, at its end. -/
def run_task (caller : Nat) (task : Task) (s : State) : State :=
  match task with
  | Task.new_bottle a =>
    match s.manager_.new_bottle a with
    | none => signal_bottle_created caller s
    | some text =>
      signal_error_message_during_create caller
        { s with manager_ := { s.manager_ with error_message := text } }
  | Task.update_bottle u =>
    match s.manager_.update_bottle u with
    | none => signal_bottle_updated caller s
    | some text =>
      signal_error_message_during_update caller
        { s with manager_ := { s.manager_ with error_message := text } }

/-- Record that worker `tid` has run to its end. -/
def mark_signalled (tid : Nat) (ws : List Worker) : List Worker :=
  ws.map fun w => if w.id = tid then { w with signalled := true } else w

/-- Record that `join()` has returned for worker `tid`. -/
def mark_joined (tid : Nat) (ws : List Worker) : List Worker :=
  ws.map fun w => if w.id = tid then { w with joined := true } else w

/-- The worker thread `tid` runs its task to the end, if it has not done so already. -/
def worker_finish (tid : Nat) (s : State) : State :=
  match s.workers.find? (fun w => w.id = tid) with
  | none => s
  | some w =>
    if w.signalled then s
    else
      let s1 := run_task tid w.task s
      { s1 with workers := mark_signalled tid s1.workers }

/-- Whether worker `tid` exists and has not yet run to its end. -/
def still_running (tid : Nat) (s : State) : Bool :=
  s.workers.any fun w => w.id = tid && !w.signalled

/-- Model of `std::thread::join`: returns once the thread has run to its end.  The trace entry
records whether the caller had to wait for a task that had not yet signalled. -/
def thread_join (tid : Nat) (s : State) : State :=
  let waited := still_running tid s
  let s1 := worker_finish tid s
  { s1 with
    workers := mark_joined tid s1.workers
    trace := s1.trace ++ [Effect.thread_join tid waited] }

/-- Model of `SignalController::cleanup_bottle_manager_thread` (lines 205-214). -/
def cleanup_bottle_manager_thread (s : State) : State :=
  match s.thread_bottle_manager_ with
  | none => s
  | some t =>
    let s1 := if t.joinable then thread_join t.id s else s
    { s1 with
      trace := s1.trace ++ [Effect.thread_delete t.id]
      thread_bottle_manager_ := none }

/-- The destructor (lines 59-63). -/
def destructor (s : State) : State :=
  cleanup_bottle_manager_thread s

/-- Model of `new std::thread(task)`: a new joinable thread whose task has just started. -/
def thread_new (task : Task) (s : State) : State :=
  let tid := s.workers.length
  { s with
    workers := s.workers ++ [⟨tid, task, false, false⟩]
    trace := s.trace ++ [Effect.thread_new tid task]
    thread_bottle_manager_ := some ⟨tid, true⟩ }

/-- Model of `SignalController::on_new_bottle` (lines 240-260). -/
def on_new_bottle (s : State) (a : NewBottleArgs) : Except Fault State :=
  match s.thread_bottle_manager_ with
  | some _ => do
    let s1 ← show_error_message busy_message s
    pure (emit Dispatcher.bottle_created none s1)
  | none => pure (thread_new (Task.new_bottle a) s)

/-- Model of `SignalController::on_update_bottle` (lines 265-282). -/
def on_update_bottle (s : State) (u : UpdateBottleStruct) : Except Fault State :=
  match s.thread_bottle_manager_ with
  | some _ => do
    let s1 ← show_error_message busy_message s
    pure (emit Dispatcher.error_message_updated none s1)
  | none => pure (thread_new (Task.update_bottle u) s)

/-- Model of `main_window_->on_new_bottle_created()`. -/
def main_window_on_new_bottle_created (s : State) : Except Fault State :=
  match s.main_window_ with
  | none => .error Fault.null_main_window
  | some _ => .ok { s with trace := s.trace ++ [Effect.main_window_on_new_bottle_created] }

/-- Model of `BottleEditWindow::on_bottle_updated` (bottle_edit_window.cc lines 245-249). -/
def edit_window_on_bottle_updated (s : State) : State :=
  { s with trace := s.trace ++ [Effect.busy_dialog_hide, Effect.edit_window_hide] }

/-- Model of `manager_.update_config_and_bottles(select_first)`. -/
def update_config_and_bottles (select_first : Bool) (s : State) : State :=
  { s with trace := s.trace ++ [Effect.update_config_and_bottles select_first] }

/-- Model of `SignalController::on_new_bottle_created` (lines 292-298). -/
def on_new_bottle_created (s : State) : Except Fault State :=
  main_window_on_new_bottle_created (cleanup_bottle_manager_thread s)

/-- Model of `SignalController::on_bottle_updated` (lines 303-312). -/
def on_bottle_updated (s : State) : Except Fault State :=
  pure (update_config_and_bottles false
    (edit_window_on_bottle_updated (cleanup_bottle_manager_thread s)))

/-- Model of `SignalController::on_error_message_created` (lines 318-326). -/
def on_error_message_created (s : State) : Except Fault State :=
  let s1 := emit Dispatcher.bottle_created none (cleanup_bottle_manager_thread s)
  show_error_message s1.manager_.get_error_message s1

/-- Model of `SignalController::on_error_message_updated` (lines 332-340). -/
def on_error_message_updated (s : State) : Except Fault State :=
  let s1 := emit Dispatcher.bottle_updated none (cleanup_bottle_manager_thread s)
  show_error_message s1.manager_.get_error_message s1

/-- The fields of `GdkEventButton` the handler can see; `x` and `y` are the pointer position. -/
structure GdkEventButton where
  type : Int
  button : Nat
  time : Nat
  x : Int
  y : Int
  deriving DecidableEq, Repr

/-- Model of `GDK_BUTTON_PRESS` of `GdkEventType`. -/
def GDK_BUTTON_PRESS : Int := 4

/-- Model of `GDK_2BUTTON_PRESS` of `GdkEventType`. -/
def GDK_2BUTTON_PRESS : Int := 5

/-- Model of `GDK_3BUTTON_PRESS` of `GdkEventType`. -/
def GDK_3BUTTON_PRESS : Int := 6

/-- Model of `GDK_BUTTON_RELEASE` of `GdkEventType`. -/
def GDK_BUTTON_RELEASE : Int := 7

/-- Model of `SignalController::on_mouse_button_pressed` (lines 220-235); `s.machine_menu` is what
`menu_.get_machine_menu()` returns. -/
def on_mouse_button_pressed (s : State) (event : GdkEventButton) : Bool × State :=
  if event.type = GDK_BUTTON_PRESS ∧ event.button = 3 then
    match s.machine_menu with
    | some _ => (true, { s with trace := s.trace ++ [Effect.menu_popup event.button event.time] })
    | none => (true, s)
  else
    (false, s)

/-- The handler bound to each dispatcher in `dispatch_signals` (lines 138-141). -/
def bound_handler (d : Dispatcher) (s : State) : Except Fault State :=
  match d with
  | Dispatcher.bottle_created => on_new_bottle_created s
  | Dispatcher.bottle_updated => on_bottle_updated s
  | Dispatcher.error_message_created => on_error_message_created s
  | Dispatcher.error_message_updated => on_error_message_updated s

/-- The GUI main loop delivers the oldest queued notification to its bound handler. -/
def dispatch (s : State) : Except Fault State :=
  match s.pending with
  | [] => pure s
  | n :: rest => bound_handler n.kind { s with pending := rest }

/-- Deliver queued notifications, oldest first, at most `fuel` of them. -/
def dispatch_all (fuel : Nat) (s : State) : Except Fault State :=
  match fuel with
  | 0 => pure s
  | fuel + 1 =>
    match s.pending with
    | [] => pure s
    | _ :: _ => do
      let s1 ← dispatch s
      dispatch_all fuel s1

/-- What can happen to a controller: a member function is called, the main loop delivers a
notification, or a worker thread reaches the end of its task. -/
inductive Event where
  | set_main_window (main_window : Option Nat)
  | on_new_bottle (a : NewBottleArgs)
  | on_update_bottle (u : UpdateBottleStruct)
  | on_new_bottle_created
  | on_bottle_updated
  | on_error_message_created
  | on_error_message_updated
  | destructor
  | dispatch
  | worker_finish (tid : Nat)
  deriving DecidableEq, Repr

/-- One event applied to a state. -/
def step (e : Event) (s : State) : Except Fault State :=
  match e with
  | Event.set_main_window p => set_main_window s p
  | Event.on_new_bottle a => on_new_bottle s a
  | Event.on_update_bottle u => on_update_bottle s u
  | Event.on_new_bottle_created => on_new_bottle_created s
  | Event.on_bottle_updated => on_bottle_updated s
  | Event.on_error_message_created => on_error_message_created s
  | Event.on_error_message_updated => on_error_message_updated s
  | Event.destructor => pure (destructor s)
  | Event.dispatch => dispatch s
  | Event.worker_finish tid => pure (worker_finish tid s)

/-- A sequence of events applied in order; a fault ends the run. -/
def run (es : List Event) (s : State) : Except Fault State :=
  match es with
  | [] => pure s
  | e :: rest => do
    let s1 ← step e s
    run rest s1

/-- The workers for which `join()` has not returned. -/
def unjoined (s : State) : List Worker :=
  s.workers.filter fun w => !w.joined

end SignalController

/-! ## The bottle edit window -/

/-- The standard exceptions in play in `on_save_button_clicked`. -/
inductive StdException where
  | runtime_error
  | invalid_argument
  | out_of_range
  | bad_alloc
  deriving DecidableEq, Repr

/-- Model of `isspace` in the C locale: space, and the control characters 9 to 13. -/
def isspace (c : Char) : Bool :=
  c.toNat = 32 || (9 ≤ c.toNat && c.toNat ≤ 13)

/-- Model of `isdigit`: the characters 0 to 9. -/
def isdigit (c : Char) : Bool :=
  48 ≤ c.toNat && c.toNat ≤ 57

/-- The value of a run of decimal digits, most significant first. -/
def digits_value (ds : List Char) : Nat :=
  ds.foldl (fun acc c => 10 * acc + (c.toNat - 48)) 0

/-- Split an optional sign off the front: `true` for a minus sign. -/
def take_sign (cs : List Char) : Bool × List Char :=
  match cs with
  | c :: rest =>
    if c.toNat = 45 then (true, rest)
    else if c.toNat = 43 then (false, rest)
    else (false, cs)
  | [] => (false, [])

/-- Model of `std::stoi(str, &sz)` in base 10: leading white space is skipped, then an optional sign
and the longest run of digits are read; what follows the digits is ignored.  No digits is
`std::invalid_argument`, a value that does not fit `int` is `std::out_of_range`. -/
def stoi (str : String) : Except StdException Int :=
  let signed := take_sign (str.toList.dropWhile isspace)
  let ds := signed.2.takeWhile isdigit
  if ds.isEmpty then
    .error StdException.invalid_argument
  else
    let v : Int := if signed.1 then -(digits_value ds : Int) else (digits_value ds : Int)
    if v < -2147483648 ∨ 2147483647 < v then .error StdException.out_of_range
    else .ok v

/-- The conversion `size_t(n)` of an `int` on a 64-bit target. -/
def to_size_t (n : Int) : Nat :=
  (n % 18446744073709551616).toNat

/-- Model of `std::vector::at`: the element, or `std::out_of_range`. -/
def vector_at {α : Type} (v : List α) (i : Nat) : Except StdException α :=
  match v.get? i with
  | some a => .ok a
  | none => .error StdException.out_of_range

/-- The conversion `BottleTypes::AudioDriver(i)` of a `size_t` to the enumeration, whose
values are kept as `int`. -/
def to_AudioDriver (i : Nat) : Int :=
  let r := i % 4294967296
  if r < 2147483648 then (r : Int) else (r : Int) - 4294967296

/-- Which exceptions the three handlers after each `try` block catch:
`std::runtime_error`, `std::invalid_argument` and `std::out_of_range`. -/
def caught (e : StdException) : Bool :=
  match e with
  | StdException.runtime_error => true
  | StdException.invalid_argument => true
  | StdException.out_of_range => true
  | StdException.bad_alloc => false

/-- A `try` block followed by the three empty handlers: a caught exception leaves the
variable at the value it had, any other exception propagates. -/
def try_catch {α : Type} (body : Except StdException α) (kept : α) : Except StdException α :=
  match body with
  | .ok a => .ok a
  | .error e => if caught e then .ok kept else .error e

/-- The constants of `bottle_types.h` and `wine_defaults.h`, which are not among the sources. -/
structure BottleTypes where
  SupportedWindowsVersions : List (Int × Int)
  WindowsOs : Int
  AudioDriver : Int
  AudioDriverStart : Int
  AudioDriverEnd : Int
  deriving DecidableEq, Repr

/-- A `Gtk::ComboBoxText`: rows of (id, text) and the active row, if any. -/
structure ComboBoxText where
  items : List (String × String)
  active : Option Nat
  deriving DecidableEq, Repr

/-- Model of `Gtk::ComboBox::get_active_id`: the id of the active row, empty when no row is
active. -/
def ComboBoxText.get_active_id (c : ComboBoxText) : String :=
  match c.active with
  | none => ""
  | some i =>
    match c.items.get? i with
    | some row => row.1
    | none => ""

/-- The getters of `BottleItem` used by the edit window. -/
structure BottleItem where
  name : String
  folder_name : String
  description : String
  windows : Int
  bit : Int
  audio_driver : Int
  virtual_desktop : String
  debug_log_level : Int
  deriving DecidableEq, Repr

/-- The widgets and members of `BottleEditWindow` that its handlers read or write. -/
structure BottleEditWindow where
  title : String
  visible : Bool
  name_entry : String
  folder_name_entry : String
  description_text_view : String
  virtual_desktop_check : Bool
  virtual_desktop_resolution_entry : String
  windows_version_combobox : ComboBoxText
  audio_driver_combobox : ComboBoxText
  log_level_combobox : ComboBoxText
  save_button_sensitive : Bool
  busy_dialog_message : String × String
  busy_dialog_visible : Bool
  active_bottle_ : Option BottleItem
  deriving DecidableEq, Repr

/-- The arguments of one `update_bottle.emit(...)` (line 351). -/
structure UpdateBottleSignal where
  name : String
  folder_name : String
  description : String
  windows_version : Int
  virtual_desktop_resolution : String
  audio : Int
  debug_log_level : Int
  deriving DecidableEq, Repr

namespace BottleEditWindow

/-- Model of `BottleEditWindow::on_save_button_clicked` (lines 281-352): the window afterwards and
the arguments of the `update_bottle` emission, or the exception that escapes. -/
def on_save_button_clicked (bt : BottleTypes) (w : BottleEditWindow) :
    Except StdException (BottleEditWindow × UpdateBottleSignal) := do
  let windows_version0 := bt.WindowsOs
  let audio0 := bt.AudioDriver
  let virtual_desktop_resolution0 := ""
  let debug_log_level0 : Int := 1
  let w1 := { w with
    save_button_sensitive := false
    busy_dialog_message := ("Updating Windows Machine", "Busy applying all your changes currently.")
    busy_dialog_visible := true }
  let name := w1.name_entry
  let folder_name := w1.folder_name_entry
  let description := w1.description_text_view
  let virtual_desktop_resolution :=
    if w1.virtual_desktop_check then w1.virtual_desktop_resolution_entry
    else virtual_desktop_resolution0
  let debug_log_level ← try_catch (stoi w1.log_level_combobox.get_active_id) debug_log_level0
  let windows_version ← try_catch
    (do
      let win_bit_index := to_size_t (← stoi w1.windows_version_combobox.get_active_id)
      let currentWindowsBit ← vector_at bt.SupportedWindowsVersions win_bit_index
      pure currentWindowsBit.1)
    windows_version0
  let audio ← try_catch
    (do
      let audio_index := to_size_t (← stoi w1.audio_driver_combobox.get_active_id)
      pure (to_AudioDriver audio_index))
    audio0
  pure (w1, ⟨name, folder_name, description, windows_version, virtual_desktop_resolution,
    audio, debug_log_level⟩)

end BottleEditWindow

/-- Constants for the examples: three supported Windows versions, two of bitness 0. -/
def sample_bottle_types : BottleTypes :=
  { SupportedWindowsVersions := [(0, 0), (1, 0), (1, 1)]
    WindowsOs := 1
    AudioDriver := 0
    AudioDriverStart := 0
    AudioDriverEnd := 5 }

/-- An edit window whose log-level combobox has no active row, so that its active id is
empty. -/
def sample_window : BottleEditWindow :=
  { title := "Edit Machine - Steam"
    visible := true
    name_entry := "Steam"
    folder_name_entry := "steam"
    description_text_view := "games"
    virtual_desktop_check := false
    virtual_desktop_resolution_entry := "1024x768"
    windows_version_combobox := ⟨[("0", "Windows 2000 (32-bit)"), ("1", "Windows XP (32-bit)")],
      some 1⟩
    audio_driver_combobox := ⟨[("0", "pulseaudio"), ("1", "alsa")], some 1⟩
    log_level_combobox := ⟨[("0", "Off"), ("1", "Error + Fixme (default)")], none⟩
    save_button_sensitive := true
    busy_dialog_message := ("", "")
    busy_dialog_visible := false
    active_bottle_ := none }

/-- The same window with a log-level row whose id is not a number, selected. -/
def sample_window_abc : BottleEditWindow :=
  { sample_window with log_level_combobox := ⟨[("abc", "Broken")], some 0⟩ }

/-- The decimal digits of `n` in front of `acc`, most significant first; `fuel` bounds the
number of digits. -/
def decimal_digits : Nat → Nat → List Char → List Char
  | 0, _, acc => acc
  | fuel + 1, n, acc =>
    if n / 10 = 0 then Char.ofNat (48 + n % 10) :: acc
    else decimal_digits fuel (n / 10) (Char.ofNat (48 + n % 10) :: acc)

/-- Model of `std::to_string` on an integer: a minus sign for a negative value, then the
decimal digits. -/
def to_string (n : Int) : String :=
  if n < 0 then String.mk (Char.ofNat 45 :: decimal_digits (n.natAbs + 1) n.natAbs [])
  else String.mk (decimal_digits (n.natAbs + 1) n.natAbs [])

/-- No `std::vector` holds more than `PTRDIFF_MAX` elements. -/
def vector_max_size : Nat := 9223372036854775807

/-- The two `BottleTypes::to_string` overloads, which are not among the sources: the display
names of a Windows version and of a bitness. -/
structure Labels where
  windows : Int → String
  bit : Int → String

/-- Model of `Gtk::ComboBoxText::remove_all`. -/
def ComboBoxText.remove_all (_c : ComboBoxText) : ComboBoxText :=
  ⟨[], none⟩

/-- Model of `Gtk::ComboBoxText::append(id, text)`: one more row at the end. -/
def ComboBoxText.append (c : ComboBoxText) (id text : String) : ComboBoxText :=
  { c with items := c.items ++ [(id, text)] }

/-- Model of `Gtk::ComboBoxText::set_active_text`: the first row with this text becomes
active, and no row is active when there is none. -/
def ComboBoxText.set_active_text (c : ComboBoxText) (text : String) : ComboBoxText :=
  { c with active := c.items.findIdx? fun row => row.2 == text }

/-- Model of `Gtk::ComboBox::set_active_id`: the first row with this id becomes active; without
such a row nothing changes. -/
def ComboBoxText.set_active_id (c : ComboBoxText) (id : String) : ComboBoxText :=
  match c.items.findIdx? fun row => row.1 == id with
  | some i => { c with active := some i }
  | none => c

namespace BottleEditWindow

/-- The loop of `show()` over `SupportedWindowsVersions` (lines 182-192): `index` is the
distance of the current entry from the beginning of the vector. -/
def fill_windows_versions (labels : Labels) (bit : Int) :
    List (Int × Int) → Nat → ComboBoxText → ComboBoxText
  | [], _, c => c
  | entry :: rest, index, c =>
    if bit = entry.2 then
      fill_windows_versions labels bit rest (index + 1)
        (c.append (to_string index)
          (labels.windows entry.1 ++ " (" ++ labels.bit entry.2 ++ ")"))
    else
      fill_windows_versions labels bit rest (index + 1) c

/-- Model of `BottleEditWindow::show` (lines 163-215). -/
def show_window (bt : BottleTypes) (labels : Labels) (w : BottleEditWindow) :
    BottleEditWindow :=
  match w.active_bottle_ with
  | some b =>
    let windows_version_combobox :=
      (fill_windows_versions labels b.bit bt.SupportedWindowsVersions 0
        w.windows_version_combobox.remove_all).set_active_text
        (labels.windows b.windows ++ " (" ++ labels.bit b.bit ++ ")")
    { w with
      title := "Edit Machine - " ++ (if !b.name.isEmpty then b.name else b.folder_name)
      save_button_sensitive := true
      name_entry := b.name
      folder_name_entry := b.folder_name
      description_text_view := b.description
      windows_version_combobox := windows_version_combobox
      audio_driver_combobox := w.audio_driver_combobox.set_active_id (to_string b.audio_driver)
      virtual_desktop_resolution_entry :=
        if !b.virtual_desktop.isEmpty then b.virtual_desktop
        else w.virtual_desktop_resolution_entry
      virtual_desktop_check := !b.virtual_desktop.isEmpty
      log_level_combobox := w.log_level_combobox.set_active_id (to_string b.debug_log_level)
      visible := true }
  | none => { w with title := "Edit Machine (Unknown machine)", visible := true }

end BottleEditWindow

/-- Display names for the examples. -/
def sample_labels : Labels :=
  { windows := fun v => "Windows " ++ to_string v
    bit := fun b => to_string b ++ "-bit" }

/-- A bottle of bitness 0 running Windows version 1. -/
def sample_bottle : BottleItem :=
  ⟨"Steam", "steam", "games", 1, 0, 1, "", 1⟩

/-- The example window with `sample_bottle` as its active bottle. -/
def sample_window_bottle : BottleEditWindow :=
  { sample_window with active_bottle_ := some sample_bottle }

/-- The example window with an audio id outside the driver range and a Windows-version id
outside the table, both selected. -/
def sample_window_out_of_range : BottleEditWindow :=
  { sample_window with
    windows_version_combobox := ⟨[("7", "Unknown")], some 0⟩
    audio_driver_combobox := ⟨[("99", "Unknown")], some 0⟩ }

/-! ## Invariant of the task slot -/

namespace SignalController

/-- The ids of the workers for which `join()` has not returned. -/
def unjoined_ids (ws : List Worker) : List Nat :=
  (ws.filter fun w => !w.joined).map fun w => w.id

/-- The id held in the task slot, as a list of length at most one. -/
def slot_ids (s : State) : List Nat :=
  match s.thread_bottle_manager_ with
  | none => []
  | some t => [t.id]

/-- The slot invariant: the unjoined workers are exactly the thread held in the slot, and a
held `std::thread` is joinable. -/
def SlotInv (s : State) : Prop :=
  unjoined_ids s.workers = slot_ids s ∧
    ∀ t, s.thread_bottle_manager_ = some t → t.joinable = true

/-- How often the main window was told that a bottle was created. -/
def created_calls (tr : List Effect) : Nat :=
  tr.count Effect.main_window_on_new_bottle_created

/-- Whether a trace entry is a `join()`. -/
def is_join (e : Effect) : Bool :=
  match e with
  | Effect.thread_join _ _ => true
  | _ => false

/-- A manager whose create fails on an empty name and whose update fails on an empty
folder name. -/
def sample_manager : BottleManager :=
  { new_bottle := fun a => if a.name.isEmpty then some "no name given" else none
    update_bottle := fun u => if u.folder_name.isEmpty then some "no folder given" else none
    error_message := "" }

/-- A create request that succeeds under `sample_manager`. -/
def sample_create : NewBottleArgs :=
  ⟨"Steam", 10, 64, "", false, 0⟩

/-- A second create request. -/
def sample_create_again : NewBottleArgs :=
  ⟨"Office", 7, 32, "1024x768", true, 1⟩

/-- A create request that fails under `sample_manager`. -/
def sample_create_failing : NewBottleArgs :=
  ⟨"", 10, 64, "", false, 0⟩

/-- An update request that succeeds under `sample_manager`. -/
def sample_update : UpdateBottleStruct :=
  ⟨"Steam", "steam", "games", 10, "", 0, false, 1⟩

/-- A controller with its main window bound and one create task in flight. -/
def sample_busy : State :=
  { main_window_ := some 1
    thread_bottle_manager_ := some ⟨0, true⟩
    manager_ := sample_manager
    machine_menu := none
    workers := [⟨0, Task.new_bottle sample_create, false, false⟩]
    pending := []
    trace := [Effect.thread_new 0 (Task.new_bottle sample_create)] }

/-- The run of claim C5: create task `a` is submitted to a fresh controller with its main
window bound, create task `b` is submitted while `a` is in flight, the main loop delivers the
queued notification and then whatever else is queued, worker 0 (task `a`) reaches its end if
it has not yet, and the main loop delivers again.  The result is the state after the second
submission, after the first delivery, and at the end. -/
def create_twice (manager : BottleManager) (machine_menu : Option Nat) (main_window : Nat)
    (a b : NewBottleArgs) : Except Fault (State × State × State) := do
  let s0 ← set_main_window (fresh manager machine_menu) (some main_window)
  let s1 ← on_new_bottle s0 a
  let s2 ← on_new_bottle s1 b
  let s3 ← dispatch s2
  let s4 ← dispatch_all 4 s3
  let s5 := worker_finish 0 s4
  let s6 ← dispatch_all 4 s5
  pure (s2, s3, s6)

/-- The `join()` entries of a trace. -/
def joins (tr : List Effect) : List Effect :=
  tr.filter is_join

/-- Whether a worker with id `tid` in `ws` has not yet run to its end. -/
def running_in (tid : Nat) (ws : List Worker) : Bool :=
  ws.any fun w => w.id = tid && !w.signalled

/-- Bookkeeping invariant of the queue: thread ids are below the number of threads started,
and a queued notification that a worker signalled comes from a worker that has run to its
end. -/
def QueueInv (s : State) : Prop :=
  (∀ x ∈ s.workers, x.id < s.workers.length) ∧
    ∀ n ∈ s.pending, ∀ w, n.origin = some w →
      w < s.workers.length ∧ running_in w s.workers = false

/-- A controller whose one create task has run to its end and signalled, not yet delivered. -/
def sample_signalled : State :=
  { main_window_ := some 1
    thread_bottle_manager_ := some ⟨0, true⟩
    manager_ := sample_manager
    machine_menu := none
    workers := [⟨0, Task.new_bottle sample_create, true, false⟩]
    pending := [⟨Dispatcher.bottle_created, some 0⟩]
    trace := [Effect.thread_new 0 (Task.new_bottle sample_create)] }

/-- A create task fails and its error is handled; then an update task is submitted, and a
second update request arrives while it is in flight and its notification is delivered. -/
def stale_message_run : List Event :=
  [Event.set_main_window (some 1), Event.on_new_bottle sample_create_failing,
    Event.worker_finish 0, Event.dispatch, Event.dispatch,
    Event.on_update_bottle sample_update, Event.on_update_bottle sample_update,
    Event.dispatch]

/-- A create task fails and the main loop delivers its error notification. -/
def failed_create_run : List Event :=
  [Event.set_main_window (some 1), Event.on_new_bottle sample_create_failing,
    Event.worker_finish 0, Event.dispatch]

theorem unjoined_ids_mark_signalled (tid : Nat) (ws : List Worker) :
    unjoined_ids (mark_signalled tid ws) = unjoined_ids ws := by
  induction ws with
  | nil => rfl
  | cons w ws ih =>
    simp only [unjoined_ids, mark_signalled] at ih ⊢
    by_cases hw : w.id = tid <;> by_cases hj : w.joined = true <;>
      simp [List.filter_cons, hw, hj, ih]

theorem unjoined_ids_mark_joined (tid : Nat) (ws : List Worker) :
    unjoined_ids (mark_joined tid ws) = (unjoined_ids ws).filter fun i => i ≠ tid := by
  induction ws with
  | nil => rfl
  | cons w ws ih =>
    simp only [unjoined_ids, mark_joined] at ih ⊢
    by_cases hw : w.id = tid <;> by_cases hj : w.joined = true <;>
      simp [List.filter_cons, hw, hj, ih]

theorem unjoined_ids_append_new (ws : List Worker) (tid : Nat) (task : Task) :
    unjoined_ids (ws ++ [⟨tid, task, false, false⟩]) = unjoined_ids ws ++ [tid] := by
  simp [unjoined_ids, List.filter_append]

theorem run_task_workers (caller : Nat) (task : Task) (s : State) :
    (run_task caller task s).workers = s.workers := by
  unfold run_task
  cases task <;> simp only <;> split <;> rfl

theorem run_task_slot (caller : Nat) (task : Task) (s : State) :
    (run_task caller task s).thread_bottle_manager_ = s.thread_bottle_manager_ := by
  unfold run_task
  cases task <;> simp only <;> split <;> rfl

theorem run_task_main_window (caller : Nat) (task : Task) (s : State) :
    (run_task caller task s).main_window_ = s.main_window_ := by
  unfold run_task
  cases task <;> simp only <;> split <;> rfl

theorem run_task_trace (caller : Nat) (task : Task) (s : State) :
    (run_task caller task s).trace = s.trace := by
  unfold run_task
  cases task <;> simp only <;> split <;> rfl

theorem worker_finish_slot (tid : Nat) (s : State) :
    (worker_finish tid s).thread_bottle_manager_ = s.thread_bottle_manager_ := by
  unfold worker_finish
  split
  · rfl
  · split
    · rfl
    · simp [run_task_slot]

theorem worker_finish_main_window (tid : Nat) (s : State) :
    (worker_finish tid s).main_window_ = s.main_window_ := by
  unfold worker_finish
  split
  · rfl
  · split
    · rfl
    · simp [run_task_main_window]

theorem worker_finish_trace (tid : Nat) (s : State) :
    (worker_finish tid s).trace = s.trace := by
  unfold worker_finish
  split
  · rfl
  · split
    · rfl
    · simp [run_task_trace]

theorem worker_finish_unjoined (tid : Nat) (s : State) :
    unjoined_ids (worker_finish tid s).workers = unjoined_ids s.workers := by
  unfold worker_finish
  split
  · rfl
  · split
    · rfl
    · simp [run_task_workers, unjoined_ids_mark_signalled]

theorem worker_finish_length (tid : Nat) (s : State) :
    (worker_finish tid s).workers.length = s.workers.length := by
  unfold worker_finish
  split
  · rfl
  · split
    · rfl
    · simp [run_task_workers, mark_signalled]

theorem thread_join_slot (tid : Nat) (s : State) :
    (thread_join tid s).thread_bottle_manager_ = s.thread_bottle_manager_ := by
  simp [thread_join, worker_finish_slot]

theorem thread_join_main_window (tid : Nat) (s : State) :
    (thread_join tid s).main_window_ = s.main_window_ := by
  simp [thread_join, worker_finish_main_window]

theorem thread_join_unjoined (tid : Nat) (s : State) :
    unjoined_ids (thread_join tid s).workers =
      (unjoined_ids s.workers).filter fun i => i ≠ tid := by
  simp [thread_join, unjoined_ids_mark_joined, worker_finish_unjoined]

theorem thread_join_length (tid : Nat) (s : State) :
    (thread_join tid s).workers.length = s.workers.length := by
  simp [thread_join, mark_joined, worker_finish_length]

theorem cleanup_slot (s : State) :
    (cleanup_bottle_manager_thread s).thread_bottle_manager_ = none := by
  unfold cleanup_bottle_manager_thread
  split
  · assumption
  · rfl

theorem cleanup_main_window (s : State) :
    (cleanup_bottle_manager_thread s).main_window_ = s.main_window_ := by
  unfold cleanup_bottle_manager_thread
  split
  · rfl
  · simp only
    split
    · exact thread_join_main_window _ _
    · rfl

theorem cleanup_length (s : State) :
    (cleanup_bottle_manager_thread s).workers.length = s.workers.length := by
  unfold cleanup_bottle_manager_thread
  split
  · rfl
  · simp only
    split
    · exact thread_join_length _ _
    · rfl

theorem cleanup_inv (s : State) (h : SlotInv s) : SlotInv (cleanup_bottle_manager_thread s) := by
  refine ⟨?_, ?_⟩
  · have hs := cleanup_slot s
    simp only [slot_ids, hs]
    unfold cleanup_bottle_manager_thread
    cases ht : s.thread_bottle_manager_ with
    | none =>
      have h1 := h.1
      simp only [slot_ids, ht] at h1
      simpa using h1
    | some t =>
      have h1 := h.1
      have h2 := h.2 t ht
      simp only [slot_ids, ht] at h1
      simp [h2, thread_join_unjoined, h1]
  · intro t ht
    rw [cleanup_slot] at ht
    cases ht

theorem inv_of_same_threads (s s1 : State) (h : SlotInv s)
    (hw : s1.workers = s.workers)
    (ht : s1.thread_bottle_manager_ = s.thread_bottle_manager_) : SlotInv s1 := by
  unfold SlotInv slot_ids at *
  rw [hw, ht]
  exact h

theorem show_error_message_ok (message : String) (s s1 : State)
    (hs : show_error_message message s = .ok s1) :
    s.main_window_ ≠ none ∧
      s1 = { s with trace := s.trace ++ [Effect.show_error_message message] } := by
  unfold show_error_message at hs
  cases hm : s.main_window_ with
  | none => simp [hm] at hs
  | some p =>
    simp only [hm, Except.ok.injEq] at hs
    exact ⟨by simp, hs.symm⟩

theorem main_window_on_new_bottle_created_ok (s s1 : State)
    (hs : main_window_on_new_bottle_created s = .ok s1) :
    s.main_window_ ≠ none ∧
      s1 = { s with trace := s.trace ++ [Effect.main_window_on_new_bottle_created] } := by
  unfold main_window_on_new_bottle_created at hs
  cases hm : s.main_window_ with
  | none => simp [hm] at hs
  | some p =>
    simp only [hm, Except.ok.injEq] at hs
    exact ⟨by simp, hs.symm⟩

theorem thread_new_inv (task : Task) (s : State) (h : SlotInv s)
    (ht : s.thread_bottle_manager_ = none) : SlotInv (thread_new task s) := by
  have h1 := h.1
  simp only [slot_ids, ht] at h1
  refine ⟨?_, ?_⟩
  · simp [thread_new, slot_ids, unjoined_ids_append_new, h1]
  · intro t hth
    simp only [thread_new, Option.some.injEq] at hth
    rw [← hth]

theorem on_new_bottle_ok (s s1 : State) (a : NewBottleArgs) (hs : on_new_bottle s a = .ok s1) :
    (s.thread_bottle_manager_ = none ∧ s1 = thread_new (Task.new_bottle a) s) ∨
    (s.thread_bottle_manager_ ≠ none ∧ s.main_window_ ≠ none ∧
      s1 = emit Dispatcher.bottle_created none
        { s with trace := s.trace ++ [Effect.show_error_message busy_message] }) := by
  unfold on_new_bottle at hs
  cases ht : s.thread_bottle_manager_ with
  | none =>
    left
    simp only [ht, pure, Except.pure, Except.ok.injEq] at hs
    exact ⟨rfl, hs.symm⟩
  | some t =>
    right
    simp only [ht] at hs
    cases hm : show_error_message busy_message s with
    | error f => simp [hm, bind, Except.bind] at hs
    | ok s2 =>
      have h2 := show_error_message_ok _ _ _ hm
      simp only [hm, bind, Except.bind, pure, Except.pure, Except.ok.injEq] at hs
      refine ⟨by simp, h2.1, ?_⟩
      rw [← hs, h2.2, ht]

theorem on_update_bottle_ok (s s1 : State) (u : UpdateBottleStruct)
    (hs : on_update_bottle s u = .ok s1) :
    (s.thread_bottle_manager_ = none ∧ s1 = thread_new (Task.update_bottle u) s) ∨
    (s.thread_bottle_manager_ ≠ none ∧ s.main_window_ ≠ none ∧
      s1 = emit Dispatcher.error_message_updated none
        { s with trace := s.trace ++ [Effect.show_error_message busy_message] }) := by
  unfold on_update_bottle at hs
  cases ht : s.thread_bottle_manager_ with
  | none =>
    left
    simp only [ht, pure, Except.pure, Except.ok.injEq] at hs
    exact ⟨rfl, hs.symm⟩
  | some t =>
    right
    simp only [ht] at hs
    cases hm : show_error_message busy_message s with
    | error f => simp [hm, bind, Except.bind] at hs
    | ok s2 =>
      have h2 := show_error_message_ok _ _ _ hm
      simp only [hm, bind, Except.bind, pure, Except.pure, Except.ok.injEq] at hs
      refine ⟨by simp, h2.1, ?_⟩
      rw [← hs, h2.2, ht]

/-- What a notifier handler leaves behind, relative to the state after the cleanup. -/
theorem bound_handler_ok (d : Dispatcher) (s s1 : State) (hs : bound_handler d s = .ok s1) :
    s1.workers = (cleanup_bottle_manager_thread s).workers ∧
      s1.thread_bottle_manager_ = none := by
  cases d with
  | bottle_created =>
    simp only [bound_handler, on_new_bottle_created] at hs
    have h := (main_window_on_new_bottle_created_ok _ _ hs).2
    rw [h]
    exact ⟨rfl, cleanup_slot s⟩
  | bottle_updated =>
    simp only [bound_handler, on_bottle_updated, pure, Except.pure, Except.ok.injEq] at hs
    rw [← hs]
    exact ⟨rfl, cleanup_slot s⟩
  | error_message_created =>
    simp only [bound_handler, on_error_message_created] at hs
    have h := (show_error_message_ok _ _ _ hs).2
    rw [h]
    exact ⟨rfl, cleanup_slot s⟩
  | error_message_updated =>
    simp only [bound_handler, on_error_message_updated] at hs
    have h := (show_error_message_ok _ _ _ hs).2
    rw [h]
    exact ⟨rfl, cleanup_slot s⟩

theorem bound_handler_inv (d : Dispatcher) (s s1 : State) (h : SlotInv s)
    (hs : bound_handler d s = .ok s1) : SlotInv s1 := by
  have hb := bound_handler_ok d s s1 hs
  have hc := cleanup_inv s h
  exact inv_of_same_threads _ _ hc hb.1 (by rw [hb.2, cleanup_slot])

theorem dispatch_ok (s s1 : State) (hs : dispatch s = .ok s1) :
    s1 = s ∨ ∃ n rest, s.pending = n :: rest ∧
      bound_handler n.kind { s with pending := rest } = .ok s1 := by
  unfold dispatch at hs
  cases hp : s.pending with
  | nil =>
    simp only [hp, pure, Except.pure, Except.ok.injEq] at hs
    exact Or.inl hs.symm
  | cons n rest =>
    simp only [hp] at hs
    exact Or.inr ⟨n, rest, rfl, hs⟩

theorem step_inv (e : Event) (s s1 : State) (h : SlotInv s) (hs : step e s = .ok s1) :
    SlotInv s1 := by
  cases e with
  | set_main_window p =>
    simp only [step, set_main_window] at hs
    cases hm : s.main_window_ with
    | some q => simp [hm] at hs
    | none =>
      simp only [hm, Except.ok.injEq] at hs
      rw [← hs]
      exact inv_of_same_threads _ _ h rfl rfl
  | on_new_bottle a =>
    rcases on_new_bottle_ok s s1 a hs with ⟨ht, rfl⟩ | ⟨_, _, rfl⟩
    · exact thread_new_inv _ _ h ht
    · exact inv_of_same_threads _ _ h rfl rfl
  | on_update_bottle u =>
    rcases on_update_bottle_ok s s1 u hs with ⟨ht, rfl⟩ | ⟨_, _, rfl⟩
    · exact thread_new_inv _ _ h ht
    · exact inv_of_same_threads _ _ h rfl rfl
  | on_new_bottle_created => exact bound_handler_inv Dispatcher.bottle_created s s1 h hs
  | on_bottle_updated => exact bound_handler_inv Dispatcher.bottle_updated s s1 h hs
  | on_error_message_created =>
    exact bound_handler_inv Dispatcher.error_message_created s s1 h hs
  | on_error_message_updated =>
    exact bound_handler_inv Dispatcher.error_message_updated s s1 h hs
  | destructor =>
    simp only [step, destructor, pure, Except.pure, Except.ok.injEq] at hs
    rw [← hs]
    exact cleanup_inv s h
  | dispatch =>
    rcases dispatch_ok s s1 hs with rfl | ⟨n, rest, _, hb⟩
    · exact h
    · exact bound_handler_inv n.kind { s with pending := rest } s1
        (inv_of_same_threads s _ h rfl rfl) hb
  | worker_finish tid =>
    simp only [step, pure, Except.pure, Except.ok.injEq] at hs
    rw [← hs]
    refine ⟨?_, ?_⟩
    · rw [worker_finish_unjoined, h.1]
      simp [slot_ids, worker_finish_slot]
    · intro t ht
      rw [worker_finish_slot] at ht
      exact h.2 t ht

theorem run_inv (es : List Event) (s s1 : State) (h : SlotInv s) (hs : run es s = .ok s1) :
    SlotInv s1 := by
  induction es generalizing s with
  | nil =>
    simp only [run, pure, Except.pure, Except.ok.injEq] at hs
    rw [← hs]
    exact h
  | cons e rest ih =>
    simp only [run] at hs
    cases he : step e s with
    | error f => simp [he, bind, Except.bind] at hs
    | ok s2 =>
      simp only [he, bind, Except.bind] at hs
      exact ih s2 (step_inv e s s2 h he) hs

theorem fresh_inv (manager : BottleManager) (machine_menu : Option Nat) :
    SlotInv (fresh manager machine_menu) := by
  refine ⟨rfl, ?_⟩
  intro t ht
  simp [fresh] at ht

/-- A step starts a thread only from an empty slot. -/
theorem step_spawn (e : Event) (s s1 : State) (hs : step e s = .ok s1)
    (hl : s.workers.length < s1.workers.length) : s.thread_bottle_manager_ = none := by
  cases e with
  | set_main_window p =>
    simp only [step, set_main_window] at hs
    cases hm : s.main_window_ with
    | some q => simp [hm] at hs
    | none =>
      simp only [hm, Except.ok.injEq] at hs
      rw [← hs] at hl
      simp at hl
  | on_new_bottle a =>
    rcases on_new_bottle_ok s s1 a hs with ⟨ht, _⟩ | ⟨_, _, rfl⟩
    · exact ht
    · simp [emit] at hl
  | on_update_bottle u =>
    rcases on_update_bottle_ok s s1 u hs with ⟨ht, _⟩ | ⟨_, _, rfl⟩
    · exact ht
    · simp [emit] at hl
  | on_new_bottle_created =>
    have hb := (bound_handler_ok Dispatcher.bottle_created s s1 hs).1
    rw [hb, cleanup_length] at hl
    exact absurd hl (lt_irrefl _)
  | on_bottle_updated =>
    have hb := (bound_handler_ok Dispatcher.bottle_updated s s1 hs).1
    rw [hb, cleanup_length] at hl
    exact absurd hl (lt_irrefl _)
  | on_error_message_created =>
    have hb := (bound_handler_ok Dispatcher.error_message_created s s1 hs).1
    rw [hb, cleanup_length] at hl
    exact absurd hl (lt_irrefl _)
  | on_error_message_updated =>
    have hb := (bound_handler_ok Dispatcher.error_message_updated s s1 hs).1
    rw [hb, cleanup_length] at hl
    exact absurd hl (lt_irrefl _)
  | destructor =>
    simp only [step, destructor, pure, Except.pure, Except.ok.injEq] at hs
    rw [← hs, cleanup_length] at hl
    exact absurd hl (lt_irrefl _)
  | dispatch =>
    rcases dispatch_ok s s1 hs with rfl | ⟨n, rest, _, hb⟩
    · exact absurd hl (lt_irrefl _)
    · have hb1 := (bound_handler_ok n.kind _ s1 hb).1
      rw [hb1, cleanup_length] at hl
      exact absurd hl (lt_irrefl _)
  | worker_finish tid =>
    simp only [step, pure, Except.pure, Except.ok.injEq] at hs
    rw [← hs, worker_finish_length] at hl
    exact absurd hl (lt_irrefl _)

theorem mark_signalled_ids (tid : Nat) (ws : List Worker) :
    (mark_signalled tid ws).map (fun w => w.id) = ws.map (fun w => w.id) := by
  induction ws with
  | nil => rfl
  | cons w ws ih =>
    simp only [mark_signalled, List.map_cons] at ih ⊢
    rw [ih]
    by_cases hw : w.id = tid <;> simp [hw]

theorem mark_joined_ids (tid : Nat) (ws : List Worker) :
    (mark_joined tid ws).map (fun w => w.id) = ws.map (fun w => w.id) := by
  induction ws with
  | nil => rfl
  | cons w ws ih =>
    simp only [mark_joined, List.map_cons] at ih ⊢
    rw [ih]
    by_cases hw : w.id = tid <;> simp [hw]

theorem worker_finish_ids (tid : Nat) (s : State) :
    (worker_finish tid s).workers.map (fun w => w.id) = s.workers.map (fun w => w.id) := by
  unfold worker_finish
  split
  · rfl
  · split
    · rfl
    · simp only [run_task_workers, mark_signalled_ids]

theorem thread_join_ids (tid : Nat) (s : State) :
    (thread_join tid s).workers.map (fun w => w.id) = s.workers.map (fun w => w.id) := by
  simp only [thread_join, mark_joined_ids, worker_finish_ids]

theorem cleanup_ids (s : State) :
    (cleanup_bottle_manager_thread s).workers.map (fun w => w.id) =
      s.workers.map (fun w => w.id) := by
  unfold cleanup_bottle_manager_thread
  split
  · rfl
  · simp only
    split
    · exact thread_join_ids _ _
    · rfl

/-- No step forgets a thread it has started. -/
theorem step_ids (e : Event) (s s1 : State) (hs : step e s = .ok s1) :
    ∃ extra, s1.workers.map (fun w => w.id) = s.workers.map (fun w => w.id) ++ extra := by
  cases e with
  | set_main_window p =>
    simp only [step, set_main_window] at hs
    cases hm : s.main_window_ with
    | some q => simp [hm] at hs
    | none =>
      simp only [hm, Except.ok.injEq] at hs
      rw [← hs]
      exact ⟨[], by simp⟩
  | on_new_bottle a =>
    rcases on_new_bottle_ok s s1 a hs with ⟨_, rfl⟩ | ⟨_, _, rfl⟩
    · exact ⟨[s.workers.length], by simp [thread_new]⟩
    · exact ⟨[], by simp [emit]⟩
  | on_update_bottle u =>
    rcases on_update_bottle_ok s s1 u hs with ⟨_, rfl⟩ | ⟨_, _, rfl⟩
    · exact ⟨[s.workers.length], by simp [thread_new]⟩
    · exact ⟨[], by simp [emit]⟩
  | on_new_bottle_created =>
    have hb := (bound_handler_ok Dispatcher.bottle_created s s1 hs).1
    exact ⟨[], by rw [hb, cleanup_ids, List.append_nil]⟩
  | on_bottle_updated =>
    have hb := (bound_handler_ok Dispatcher.bottle_updated s s1 hs).1
    exact ⟨[], by rw [hb, cleanup_ids, List.append_nil]⟩
  | on_error_message_created =>
    have hb := (bound_handler_ok Dispatcher.error_message_created s s1 hs).1
    exact ⟨[], by rw [hb, cleanup_ids, List.append_nil]⟩
  | on_error_message_updated =>
    have hb := (bound_handler_ok Dispatcher.error_message_updated s s1 hs).1
    exact ⟨[], by rw [hb, cleanup_ids, List.append_nil]⟩
  | destructor =>
    simp only [step, destructor, pure, Except.pure, Except.ok.injEq] at hs
    exact ⟨[], by rw [← hs, cleanup_ids, List.append_nil]⟩
  | dispatch =>
    rcases dispatch_ok s s1 hs with rfl | ⟨n, rest, _, hb⟩
    · exact ⟨[], by simp⟩
    · have hb1 := (bound_handler_ok n.kind _ s1 hb).1
      exact ⟨[], by rw [hb1, cleanup_ids, List.append_nil]⟩
  | worker_finish tid =>
    simp only [step, pure, Except.pure, Except.ok.injEq] at hs
    exact ⟨[], by rw [← hs, worker_finish_ids, List.append_nil]⟩

theorem unjoined_length_le_one (s : State) (h : SlotInv s) : (unjoined s).length ≤ 1 := by
  have h1 := congrArg List.length h.1
  simp only [unjoined_ids, List.length_map] at h1
  unfold unjoined
  rw [h1]
  unfold slot_ids
  split <;> simp

theorem all_joined_of_empty_slot (s : State) (h : SlotInv s)
    (ht : s.thread_bottle_manager_ = none) : ∀ w ∈ s.workers, w.joined = true := by
  have h1 := h.1
  simp only [slot_ids, ht, unjoined_ids, List.map_eq_nil_iff, List.filter_eq_nil_iff] at h1
  intro w hw
  simpa using h1 w hw

theorem held_thread_unjoined (s : State) (h : SlotInv s) (t : Thread)
    (ht : s.thread_bottle_manager_ = some t) :
    ∃ w ∈ s.workers, w.id = t.id ∧ w.joined = false := by
  have h1 := h.1
  simp only [slot_ids, ht, unjoined_ids] at h1
  have hm : t.id ∈ (s.workers.filter fun w => !w.joined).map fun w => w.id := by
    rw [h1]
    simp
  simp only [List.mem_map, List.mem_filter] at hm
  obtain ⟨w, ⟨hw, hj⟩, hid⟩ := hm
  exact ⟨w, hw, hid, by simpa using hj⟩

/-- Claim C1: in every state reached from a freshly constructed controller by any sequence of
the member functions (with the binding of the main window, the delivery of queued
notifications and the completion of worker tasks in between), at most one started thread is
unjoined.  A step starts a thread only when `thread_bottle_manager_` is null, and when a step
resets an occupied `thread_bottle_manager_` to null, the held thread, unjoined before the
step, is still known after it and every started thread is joined. -/
theorem C1_at_most_one_unjoined_thread (manager : BottleManager) (machine_menu : Option Nat)
    (es : List Event) (s : State) (h : run es (fresh manager machine_menu) = .ok s) :
    (unjoined s).length ≤ 1 ∧
    ∀ e s1, step e s = .ok s1 →
      (s.workers.length < s1.workers.length → s.thread_bottle_manager_ = none) ∧
      ∀ t, s.thread_bottle_manager_ = some t → s1.thread_bottle_manager_ = none →
        (∃ w ∈ s.workers, w.id = t.id ∧ w.joined = false) ∧
        (∃ w ∈ s1.workers, w.id = t.id) ∧
        ∀ w ∈ s1.workers, w.joined = true := by
  have hinv := run_inv es _ s (fresh_inv manager machine_menu) h
  refine ⟨unjoined_length_le_one s hinv, ?_⟩
  intro e s1 hs
  refine ⟨step_spawn e s s1 hs, ?_⟩
  intro t ht hn
  have hinv1 := step_inv e s s1 hinv hs
  have hheld := held_thread_unjoined s hinv t ht
  refine ⟨hheld, ?_, all_joined_of_empty_slot s1 hinv1 hn⟩
  obtain ⟨w, hw, hid, _⟩ := hheld
  obtain ⟨extra, hex⟩ := step_ids e s s1 hs
  have hm : t.id ∈ s1.workers.map (fun w => w.id) := by
    rw [hex]
    exact List.mem_append_left _ (List.mem_map.mpr ⟨w, hw, hid⟩)
  obtain ⟨w1, hw1, hid1⟩ := List.mem_map.mp hm
  exact ⟨w1, hw1, hid1⟩

theorem C1_at_most_one_unjoined_thread_witness :
    run [Event.set_main_window (some 1), Event.on_new_bottle sample_create]
        (fresh sample_manager none) = .ok sample_busy ∧
      (unjoined sample_busy).length ≤ 1 :=
  ⟨rfl, (C1_at_most_one_unjoined_thread sample_manager none
    [Event.set_main_window (some 1), Event.on_new_bottle sample_create] sample_busy rfl).1⟩

theorem show_error_message_returns (message : String) (s : State)
    (hm : s.main_window_ ≠ none) :
    show_error_message message s =
      .ok { s with trace := s.trace ++ [Effect.show_error_message message] } := by
  unfold show_error_message
  cases h : s.main_window_ with
  | none => exact absurd h hm
  | some p => rfl

theorem main_window_on_new_bottle_created_returns (s : State) (hm : s.main_window_ ≠ none) :
    main_window_on_new_bottle_created s =
      .ok { s with trace := s.trace ++ [Effect.main_window_on_new_bottle_created] } := by
  unfold main_window_on_new_bottle_created
  cases h : s.main_window_ with
  | none => exact absurd h hm
  | some p => rfl

/-- Claim C2: from every controller state, slot empty or occupied, each of the four notifier
handlers that runs to its end leaves `thread_bottle_manager_` null; `on_bottle_updated`
always runs to its end, and so do the other three whenever the main window is bound. -/
theorem C2_notifier_handlers_empty_the_slot (s : State) :
    (∀ s1, on_new_bottle_created s = .ok s1 → s1.thread_bottle_manager_ = none) ∧
    (∀ s1, on_bottle_updated s = .ok s1 → s1.thread_bottle_manager_ = none) ∧
    (∀ s1, on_error_message_created s = .ok s1 → s1.thread_bottle_manager_ = none) ∧
    (∀ s1, on_error_message_updated s = .ok s1 → s1.thread_bottle_manager_ = none) ∧
    (∃ s1, on_bottle_updated s = .ok s1) ∧
    (s.main_window_ ≠ none →
      (∃ s1, on_new_bottle_created s = .ok s1) ∧
      (∃ s1, on_error_message_created s = .ok s1) ∧
      (∃ s1, on_error_message_updated s = .ok s1)) := by
  refine ⟨fun s1 h => (bound_handler_ok Dispatcher.bottle_created s s1 h).2,
    fun s1 h => (bound_handler_ok Dispatcher.bottle_updated s s1 h).2,
    fun s1 h => (bound_handler_ok Dispatcher.error_message_created s s1 h).2,
    fun s1 h => (bound_handler_ok Dispatcher.error_message_updated s s1 h).2,
    ⟨_, rfl⟩, ?_⟩
  intro hm
  have hc : (cleanup_bottle_manager_thread s).main_window_ ≠ none := by
    rw [cleanup_main_window]
    exact hm
  refine ⟨⟨_, main_window_on_new_bottle_created_returns _ hc⟩, ?_, ?_⟩
  · exact ⟨_, show_error_message_returns _ _ (by simpa [emit] using hc)⟩
  · exact ⟨_, show_error_message_returns _ _ (by simpa [emit] using hc)⟩

theorem C2_notifier_handlers_empty_the_slot_witness :
    sample_busy.thread_bottle_manager_ ≠ none ∧
    sample_busy.main_window_ ≠ none ∧
    (∃ s1, on_new_bottle_created sample_busy = .ok s1) ∧
    (∃ s1, on_error_message_created sample_busy = .ok s1) ∧
    (∃ s1, on_error_message_updated sample_busy = .ok s1) :=
  ⟨by simp [sample_busy], by simp [sample_busy],
    (C2_notifier_handlers_empty_the_slot sample_busy).2.2.2.2.2 (by simp [sample_busy])⟩

/-- Claim C3: a call of `on_new_bottle` with the slot occupied (and the main window bound)
returns; it starts no thread and leaves the same handle in the slot, shows the busy message
exactly once, signals the bottle-created notifier exactly once and no other notifier. -/
theorem C3_on_new_bottle_busy_collapses (s : State) (t : Thread) (a : NewBottleArgs)
    (ht : s.thread_bottle_manager_ = some t) (hm : s.main_window_ ≠ none) :
    ∃ s1, on_new_bottle s a = .ok s1 ∧
      s1.workers = s.workers ∧
      s1.thread_bottle_manager_ = some t ∧
      s1.trace = s.trace ++
        [Effect.show_error_message "There is already running a thread. Please wait..."] ∧
      s1.pending = s.pending ++ [⟨Dispatcher.bottle_created, none⟩] ∧
      s1.main_window_ = s.main_window_ ∧
      s1.manager_ = s.manager_ := by
  refine ⟨emit Dispatcher.bottle_created none
    { s with trace := s.trace ++ [Effect.show_error_message busy_message] }, ?_, rfl, ht, rfl,
    rfl, rfl, rfl⟩
  simp only [on_new_bottle, ht, show_error_message_returns _ _ hm, bind, Except.bind, pure,
    Except.pure]

theorem C3_on_new_bottle_busy_collapses_witness :
    ∃ s1, on_new_bottle sample_busy sample_create_again = .ok s1 ∧
      s1.workers = sample_busy.workers ∧
      s1.thread_bottle_manager_ = some ⟨0, true⟩ ∧
      s1.trace = sample_busy.trace ++
        [Effect.show_error_message "There is already running a thread. Please wait..."] ∧
      s1.pending = sample_busy.pending ++ [⟨Dispatcher.bottle_created, none⟩] ∧
      s1.main_window_ = sample_busy.main_window_ ∧
      s1.manager_ = sample_busy.manager_ :=
  C3_on_new_bottle_busy_collapses sample_busy ⟨0, true⟩ sample_create_again rfl
    (by simp [sample_busy])

/-- Claim C4, what the code does: a call of `on_update_bottle` with the slot occupied starts
no thread and shows the busy message, but the notifier it signals is error-updated, the
error notifier of the update pair, and not bottle-updated. -/
theorem C4_on_update_bottle_busy_signals_error_updated (s : State) (t : Thread)
    (u : UpdateBottleStruct)
    (ht : s.thread_bottle_manager_ = some t) (hm : s.main_window_ ≠ none) :
    ∃ s1, on_update_bottle s u = .ok s1 ∧
      s1.workers = s.workers ∧
      s1.thread_bottle_manager_ = some t ∧
      s1.trace = s.trace ++ [Effect.show_error_message busy_message] ∧
      s1.pending = s.pending ++ [⟨Dispatcher.error_message_updated, none⟩] ∧
      (⟨Dispatcher.bottle_updated, none⟩ : Notification) ∉
        s1.pending.drop s.pending.length := by
  refine ⟨emit Dispatcher.error_message_updated none
    { s with trace := s.trace ++ [Effect.show_error_message busy_message] }, ?_, rfl, ht, rfl,
    rfl, ?_⟩
  · simp only [on_update_bottle, ht, show_error_message_returns _ _ hm, bind, Except.bind,
      pure, Except.pure]
  · simp [emit]

theorem C4_on_update_bottle_busy_signals_error_updated_witness :
    ∃ s1, on_update_bottle sample_busy sample_update = .ok s1 ∧
      s1.workers = sample_busy.workers ∧
      s1.thread_bottle_manager_ = some ⟨0, true⟩ ∧
      s1.trace = sample_busy.trace ++ [Effect.show_error_message busy_message] ∧
      s1.pending = sample_busy.pending ++ [⟨Dispatcher.error_message_updated, none⟩] ∧
      (⟨Dispatcher.bottle_updated, none⟩ : Notification) ∉
        s1.pending.drop sample_busy.pending.length :=
  C4_on_update_bottle_busy_signals_error_updated sample_busy ⟨0, true⟩ sample_update rfl
    (by simp [sample_busy])

/-- Claim C5 fails as stated: in the run with two create requests, the handler that delivers
the collapsed notification has already emptied the slot (after joining task A) when the main
window is told, and the main window is told twice, not once. -/
theorem C5_refresh_fires_twice :
    ∃ s2 s3 s6,
      create_twice sample_manager none 1 sample_create sample_create_again = .ok (s2, s3, s6) ∧
      s2.thread_bottle_manager_ = some ⟨0, true⟩ ∧
      s3.thread_bottle_manager_ = none ∧
      s3.trace = s2.trace ++ [Effect.thread_join 0 true, Effect.thread_delete 0,
        Effect.main_window_on_new_bottle_created] ∧
      created_calls s6.trace = 2 ∧
      ¬ created_calls s6.trace = 1 :=
  ⟨_, _, _, rfl, rfl, rfl, rfl, rfl, by decide⟩

/-- Claim C5 as amended: whatever the two create requests are, if task A succeeds then B is
rejected with the busy message and never started; delivering the collapsed notification joins
A (the GUI thread waits for it), empties the slot and only then tells the main window; A has
signalled by then, its own notification is delivered next, and the main window is told a
second time: two calls in all, and nothing is left queued. -/
theorem C5_collapse_joins_and_refresh_fires_twice (manager : BottleManager)
    (machine_menu : Option Nat) (main_window : Nat) (a b : NewBottleArgs)
    (ha : manager.new_bottle a = none) :
    ∃ s2 s3 s6,
      create_twice manager machine_menu main_window a b = .ok (s2, s3, s6) ∧
      s2.workers = [⟨0, Task.new_bottle a, false, false⟩] ∧
      s2.thread_bottle_manager_ = some ⟨0, true⟩ ∧
      s2.trace = [Effect.thread_new 0 (Task.new_bottle a),
        Effect.show_error_message busy_message] ∧
      s2.pending = [⟨Dispatcher.bottle_created, none⟩] ∧
      s3.thread_bottle_manager_ = none ∧
      s3.trace = s2.trace ++ [Effect.thread_join 0 true, Effect.thread_delete 0,
        Effect.main_window_on_new_bottle_created] ∧
      s3.pending = [⟨Dispatcher.bottle_created, some 0⟩] ∧
      s6.workers = [⟨0, Task.new_bottle a, true, true⟩] ∧
      s6.trace = s3.trace ++ [Effect.main_window_on_new_bottle_created] ∧
      s6.pending = [] ∧
      created_calls s6.trace = 2 := by
  refine ⟨
    { main_window_ := some main_window
      thread_bottle_manager_ := some ⟨0, true⟩
      manager_ := manager
      machine_menu := machine_menu
      workers := [⟨0, Task.new_bottle a, false, false⟩]
      pending := [⟨Dispatcher.bottle_created, none⟩]
      trace := [Effect.thread_new 0 (Task.new_bottle a),
        Effect.show_error_message busy_message] },
    { main_window_ := some main_window
      thread_bottle_manager_ := none
      manager_ := manager
      machine_menu := machine_menu
      workers := [⟨0, Task.new_bottle a, true, true⟩]
      pending := [⟨Dispatcher.bottle_created, some 0⟩]
      trace := [Effect.thread_new 0 (Task.new_bottle a),
        Effect.show_error_message busy_message, Effect.thread_join 0 true,
        Effect.thread_delete 0, Effect.main_window_on_new_bottle_created] },
    { main_window_ := some main_window
      thread_bottle_manager_ := none
      manager_ := manager
      machine_menu := machine_menu
      workers := [⟨0, Task.new_bottle a, true, true⟩]
      pending := []
      trace := [Effect.thread_new 0 (Task.new_bottle a),
        Effect.show_error_message busy_message, Effect.thread_join 0 true,
        Effect.thread_delete 0, Effect.main_window_on_new_bottle_created,
        Effect.main_window_on_new_bottle_created] },
    ?_, rfl, rfl, rfl, rfl, rfl, rfl, rfl, rfl, rfl, rfl, ?_⟩
  · simp [create_twice, fresh, set_main_window, on_new_bottle, thread_new, show_error_message,
      emit, dispatch, dispatch_all, bound_handler, on_new_bottle_created,
      main_window_on_new_bottle_created, cleanup_bottle_manager_thread, thread_join,
      worker_finish, still_running, run_task, signal_bottle_created, mark_signalled,
      mark_joined, ha, bind, Except.bind, pure, Except.pure]
  · rfl

theorem C5_collapse_joins_and_refresh_fires_twice_witness :
    sample_manager.new_bottle sample_create = none ∧
    ∃ s2 s3 s6,
      create_twice sample_manager none 1 sample_create sample_create_again = .ok (s2, s3, s6) ∧
      s2.workers = [⟨0, Task.new_bottle sample_create, false, false⟩] ∧
      s2.thread_bottle_manager_ = some ⟨0, true⟩ ∧
      s2.trace = [Effect.thread_new 0 (Task.new_bottle sample_create),
        Effect.show_error_message busy_message] ∧
      s2.pending = [⟨Dispatcher.bottle_created, none⟩] ∧
      s3.thread_bottle_manager_ = none ∧
      s3.trace = s2.trace ++ [Effect.thread_join 0 true, Effect.thread_delete 0,
        Effect.main_window_on_new_bottle_created] ∧
      s3.pending = [⟨Dispatcher.bottle_created, some 0⟩] ∧
      s6.workers = [⟨0, Task.new_bottle sample_create, true, true⟩] ∧
      s6.trace = s3.trace ++ [Effect.main_window_on_new_bottle_created] ∧
      s6.pending = [] ∧
      created_calls s6.trace = 2 :=
  ⟨rfl, C5_collapse_joins_and_refresh_fires_twice sample_manager none 1 sample_create
    sample_create_again rfl⟩

theorem still_running_eq (tid : Nat) (s : State) :
    still_running tid s = running_in tid s.workers := rfl

theorem running_in_mark_signalled_self (tid : Nat) (ws : List Worker) :
    running_in tid (mark_signalled tid ws) = false := by
  induction ws with
  | nil => rfl
  | cons x ws ih =>
    simp only [running_in, mark_signalled, List.map_cons, List.any_cons] at ih ⊢
    rw [ih]
    by_cases hx : x.id = tid <;> simp [hx]

theorem running_in_mark_signalled (w tid : Nat) (ws : List Worker)
    (h : running_in w ws = false) : running_in w (mark_signalled tid ws) = false := by
  induction ws with
  | nil => rfl
  | cons x ws ih =>
    simp only [running_in, mark_signalled, List.map_cons, List.any_cons,
      Bool.or_eq_false_iff] at ih h ⊢
    refine ⟨?_, ih h.2⟩
    have h1 := h.1
    by_cases hx : x.id = tid
    · simp [hx]
    · simpa [hx] using h1

theorem running_in_mark_joined (w tid : Nat) (ws : List Worker) :
    running_in w (mark_joined tid ws) = running_in w ws := by
  induction ws with
  | nil => rfl
  | cons x ws ih =>
    simp only [running_in, mark_joined, List.map_cons, List.any_cons] at ih ⊢
    rw [ih]
    by_cases hx : x.id = tid <;> simp [hx]

theorem mark_signalled_length (tid : Nat) (ws : List Worker) :
    (mark_signalled tid ws).length = ws.length := by
  simp [mark_signalled]

theorem mark_joined_length (tid : Nat) (ws : List Worker) :
    (mark_joined tid ws).length = ws.length := by
  simp [mark_joined]

theorem ids_bound_of_map_eq (ws ws1 : List Worker)
    (hm : ws1.map (fun w => w.id) = ws.map (fun w => w.id))
    (h : ∀ x ∈ ws, x.id < ws.length) : ∀ x ∈ ws1, x.id < ws1.length := by
  intro x hx
  have hl : ws1.length = ws.length := by
    have := congrArg List.length hm
    simpa using this
  have hmem : x.id ∈ ws.map (fun w => w.id) := by
    rw [← hm]
    exact List.mem_map.mpr ⟨x, hx, rfl⟩
  obtain ⟨y, hy, hxy⟩ := List.mem_map.mp hmem
  rw [hl, ← hxy]
  exact h y hy

theorem run_task_pending (caller : Nat) (task : Task) (s : State) :
    ∃ d, (run_task caller task s).pending = s.pending ++ [⟨d, some caller⟩] := by
  unfold run_task
  cases task <;> simp only <;> split
  · exact ⟨Dispatcher.bottle_created, rfl⟩
  · exact ⟨Dispatcher.error_message_created, rfl⟩
  · exact ⟨Dispatcher.bottle_updated, rfl⟩
  · exact ⟨Dispatcher.error_message_updated, rfl⟩

theorem queue_inv_worker_finish (tid : Nat) (s : State) (h : QueueInv s) :
    QueueInv (worker_finish tid s) := by
  unfold worker_finish
  split
  · exact h
  · rename_i x hfind
    split
    · exact h
    · have hx := List.find?_some hfind
      have hmem := List.mem_of_find?_eq_some hfind
      have hid : x.id = tid := by simpa using hx
      obtain ⟨d, hp⟩ := run_task_pending tid x.task s
      refine ⟨?_, ?_⟩
      · simp only [run_task_workers]
        exact ids_bound_of_map_eq _ _ (mark_signalled_ids tid s.workers) h.1
      · intro n hn w hw
        simp only [run_task_workers, mark_signalled_length]
        simp only [hp, List.mem_append, List.mem_singleton] at hn
        rcases hn with hn | hn
        · exact ⟨(h.2 n hn w hw).1, running_in_mark_signalled _ _ _ (h.2 n hn w hw).2⟩
        · rw [hn] at hw
          simp only [Option.some.injEq] at hw
          rw [← hw]
          exact ⟨hid ▸ h.1 x hmem, running_in_mark_signalled_self _ _⟩

theorem thread_join_pending (tid : Nat) (s : State) :
    (thread_join tid s).pending = (worker_finish tid s).pending := rfl

theorem queue_inv_thread_join (tid : Nat) (s : State) (h : QueueInv s) :
    QueueInv (thread_join tid s) := by
  have hf := queue_inv_worker_finish tid s h
  refine ⟨?_, ?_⟩
  · exact ids_bound_of_map_eq _ _ (mark_joined_ids tid _) hf.1
  · intro n hn w hw
    have := hf.2 n hn w hw
    simp only [thread_join, mark_joined_length, running_in_mark_joined]
    exact this

theorem queue_inv_of_same (s s1 : State) (h : QueueInv s) (hw : s1.workers = s.workers)
    (hp : ∀ n ∈ s1.pending, n ∈ s.pending ∨ n.origin = none) : QueueInv s1 := by
  unfold QueueInv at *
  rw [hw]
  refine ⟨h.1, ?_⟩
  intro n hn w hnw
  rcases hp n hn with hmem | hnone
  · exact h.2 n hmem w hnw
  · rw [hnone] at hnw
    cases hnw

theorem queue_inv_cleanup (s : State) (h : QueueInv s) :
    QueueInv (cleanup_bottle_manager_thread s) := by
  unfold cleanup_bottle_manager_thread
  split
  · exact h
  · rename_i t _
    by_cases hj : t.joinable = true
    · simp only [hj, if_true]
      exact queue_inv_of_same _ _ (queue_inv_thread_join t.id s h) rfl
        (fun n hn => Or.inl hn)
    · simp only [hj]
      exact queue_inv_of_same _ _ h rfl (fun n hn => Or.inl hn)

theorem queue_inv_thread_new (task : Task) (s : State) (h : QueueInv s) :
    QueueInv (thread_new task s) := by
  refine ⟨?_, ?_⟩
  · intro x hx
    simp only [thread_new, List.mem_append, List.mem_singleton, List.length_append,
      List.length_singleton] at hx ⊢
    rcases hx with hx | hx
    · exact Nat.lt_succ_of_lt (h.1 x hx)
    · rw [hx]
      exact Nat.lt_succ_self _
  · intro n hn w hw
    have hq := h.2 n hn w hw
    simp only [thread_new, List.length_append, List.length_singleton, running_in,
      List.any_append, List.any_cons, List.any_nil, Bool.or_false, Bool.not_false,
      Bool.and_true, Bool.or_eq_false_iff, decide_eq_false_iff_not]
    refine ⟨Nat.lt_succ_of_lt hq.1, hq.2, ?_⟩
    exact fun he => absurd (he ▸ hq.1) (lt_irrefl _)

theorem bound_handler_pending (d : Dispatcher) (s s1 : State)
    (hs : bound_handler d s = .ok s1) :
    ∀ n ∈ s1.pending, n ∈ (cleanup_bottle_manager_thread s).pending ∨ n.origin = none := by
  cases d with
  | bottle_created =>
    simp only [bound_handler, on_new_bottle_created] at hs
    have h := (main_window_on_new_bottle_created_ok _ _ hs).2
    rw [h]
    exact fun n hn => Or.inl hn
  | bottle_updated =>
    simp only [bound_handler, on_bottle_updated, pure, Except.pure, Except.ok.injEq] at hs
    rw [← hs]
    exact fun n hn => Or.inl hn
  | error_message_created =>
    simp only [bound_handler, on_error_message_created] at hs
    have h := (show_error_message_ok _ _ _ hs).2
    rw [h]
    intro n hn
    simp only [emit, List.mem_append, List.mem_singleton] at hn
    rcases hn with hn | hn
    · exact Or.inl hn
    · exact Or.inr (by rw [hn])
  | error_message_updated =>
    simp only [bound_handler, on_error_message_updated] at hs
    have h := (show_error_message_ok _ _ _ hs).2
    rw [h]
    intro n hn
    simp only [emit, List.mem_append, List.mem_singleton] at hn
    rcases hn with hn | hn
    · exact Or.inl hn
    · exact Or.inr (by rw [hn])

theorem queue_inv_bound_handler (d : Dispatcher) (s s1 : State) (h : QueueInv s)
    (hs : bound_handler d s = .ok s1) : QueueInv s1 :=
  queue_inv_of_same _ _ (queue_inv_cleanup s h) (bound_handler_ok d s s1 hs).1
    (bound_handler_pending d s s1 hs)

theorem queue_inv_busy (d : Dispatcher) (s : State) (h : QueueInv s) :
    QueueInv (emit d none
      { s with trace := s.trace ++ [Effect.show_error_message busy_message] }) := by
  refine queue_inv_of_same s _ h ?_ ?_
  · rfl
  intro n hn
  simp only [emit, List.mem_append, List.mem_singleton] at hn
  rcases hn with hn | hn
  · exact Or.inl hn
  · exact Or.inr (by rw [hn])

theorem step_queue_inv (e : Event) (s s1 : State) (h : QueueInv s)
    (hs : step e s = .ok s1) : QueueInv s1 := by
  cases e with
  | set_main_window p =>
    simp only [step, set_main_window] at hs
    cases hm : s.main_window_ with
    | some q => simp [hm] at hs
    | none =>
      simp only [hm, Except.ok.injEq] at hs
      rw [← hs]
      exact queue_inv_of_same _ _ h rfl (fun n hn => Or.inl hn)
  | on_new_bottle a =>
    rcases on_new_bottle_ok s s1 a hs with ⟨_, rfl⟩ | ⟨_, _, rfl⟩
    · exact queue_inv_thread_new _ _ h
    · exact queue_inv_busy _ _ h
  | on_update_bottle u =>
    rcases on_update_bottle_ok s s1 u hs with ⟨_, rfl⟩ | ⟨_, _, rfl⟩
    · exact queue_inv_thread_new _ _ h
    · exact queue_inv_busy _ _ h
  | on_new_bottle_created => exact queue_inv_bound_handler Dispatcher.bottle_created s s1 h hs
  | on_bottle_updated => exact queue_inv_bound_handler Dispatcher.bottle_updated s s1 h hs
  | on_error_message_created =>
    exact queue_inv_bound_handler Dispatcher.error_message_created s s1 h hs
  | on_error_message_updated =>
    exact queue_inv_bound_handler Dispatcher.error_message_updated s s1 h hs
  | destructor =>
    simp only [step, destructor, pure, Except.pure, Except.ok.injEq] at hs
    rw [← hs]
    exact queue_inv_cleanup s h
  | dispatch =>
    rcases dispatch_ok s s1 hs with rfl | ⟨n, rest, hp, hb⟩
    · exact h
    · refine queue_inv_bound_handler n.kind { s with pending := rest } s1 ?_ hb
      refine queue_inv_of_same s _ h ?_ ?_
      · rfl
      intro m hm
      left
      rw [hp]
      exact List.mem_cons_of_mem _ hm
  | worker_finish tid =>
    simp only [step, pure, Except.pure, Except.ok.injEq] at hs
    rw [← hs]
    exact queue_inv_worker_finish tid s h

theorem run_queue_inv (es : List Event) (s s1 : State) (h : QueueInv s)
    (hs : run es s = .ok s1) : QueueInv s1 := by
  induction es generalizing s with
  | nil =>
    simp only [run, pure, Except.pure, Except.ok.injEq] at hs
    rw [← hs]
    exact h
  | cons e rest ih =>
    simp only [run] at hs
    cases he : step e s with
    | error f => simp [he, bind, Except.bind] at hs
    | ok s2 =>
      simp only [he, bind, Except.bind] at hs
      exact ih s2 (step_queue_inv e s s2 h he) hs

theorem fresh_queue_inv (manager : BottleManager) (machine_menu : Option Nat) :
    QueueInv (fresh manager machine_menu) := by
  refine ⟨?_, ?_⟩ <;> simp [fresh]

theorem worker_finish_of_not_running (tid : Nat) (s : State)
    (h : running_in tid s.workers = false) : worker_finish tid s = s := by
  unfold worker_finish
  split
  · rfl
  · rename_i x hfind
    split
    · rfl
    · rename_i hsig
      have hx := List.find?_some hfind
      have hmem := List.mem_of_find?_eq_some hfind
      have hid : x.id = tid := by simpa using hx
      have hrun : running_in tid s.workers = true := by
        simp only [running_in, List.any_eq_true]
        exact ⟨x, hmem, by simp [hid, hsig]⟩
      rw [h] at hrun
      cases hrun

theorem cleanup_trace_of_not_running (s : State) (t : Thread)
    (ht : s.thread_bottle_manager_ = some t) (hj : t.joinable = true)
    (hrun : running_in t.id s.workers = false) :
    (cleanup_bottle_manager_thread s).trace =
      s.trace ++ [Effect.thread_join t.id false, Effect.thread_delete t.id] := by
  unfold cleanup_bottle_manager_thread
  rw [ht]
  simp only [hj, if_true, thread_join, still_running_eq, hrun,
    worker_finish_of_not_running t.id s hrun, List.append_assoc, List.singleton_append]

theorem bound_handler_trace (d : Dispatcher) (s s1 : State)
    (hs : bound_handler d s = .ok s1) :
    ∃ tl, s1.trace = (cleanup_bottle_manager_thread s).trace ++ tl ∧ joins tl = [] := by
  cases d with
  | bottle_created =>
    simp only [bound_handler, on_new_bottle_created] at hs
    have h := (main_window_on_new_bottle_created_ok _ _ hs).2
    rw [h]
    exact ⟨[Effect.main_window_on_new_bottle_created], rfl, rfl⟩
  | bottle_updated =>
    simp only [bound_handler, on_bottle_updated, pure, Except.pure, Except.ok.injEq] at hs
    rw [← hs]
    refine ⟨[Effect.busy_dialog_hide, Effect.edit_window_hide,
      Effect.update_config_and_bottles false], ?_, rfl⟩
    simp [update_config_and_bottles, edit_window_on_bottle_updated]
  | error_message_created =>
    simp only [bound_handler, on_error_message_created] at hs
    have h := (show_error_message_ok _ _ _ hs).2
    rw [h]
    exact ⟨[Effect.show_error_message _], rfl, rfl⟩
  | error_message_updated =>
    simp only [bound_handler, on_error_message_updated] at hs
    have h := (show_error_message_ok _ _ _ hs).2
    rw [h]
    exact ⟨[Effect.show_error_message _], rfl, rfl⟩

theorem joins_append_single (tr : List Effect) (e : Effect) (h : is_join e = false) :
    joins (tr ++ [e]) = joins tr := by
  simp [joins, List.filter_append, h]

/-- Claim C6 fails as stated: after two create requests the handler that delivers the
collapsed notification joins worker 0 although it has not signalled, and the GUI thread waits
for it; the destructor of a controller with a task in flight does the same. -/
theorem C6_join_before_the_worker_signalled :
    ∃ s2 s3 s4,
      run [Event.set_main_window (some 1), Event.on_new_bottle sample_create,
        Event.on_new_bottle sample_create_again] (fresh sample_manager none) = .ok s2 ∧
      still_running 0 s2 = true ∧
      s2.pending = [⟨Dispatcher.bottle_created, none⟩] ∧
      step Event.dispatch s2 = .ok s3 ∧
      s3.trace = s2.trace ++ [Effect.thread_join 0 true, Effect.thread_delete 0,
        Effect.main_window_on_new_bottle_created] ∧
      step Event.destructor sample_busy = .ok s4 ∧
      s4.trace = sample_busy.trace ++ [Effect.thread_join 0 true, Effect.thread_delete 0] :=
  ⟨_, _, _, rfl, rfl, rfl, rfl, rfl, rfl, rfl⟩

/-- Claim C6 as amended: in every state reached by a run of the controller, a submission
(`on_new_bottle`, `on_update_bottle`) never joins and neither does the completion of a worker
task, so a join comes only from a notifier handler or the destructor; and when the main loop
delivers a notification that the thread held in the slot has itself signalled, the handler
joins that thread without waiting and releases it.  Nothing is promised for a handler run on
a notification the controller emitted itself, nor for the destructor. -/
theorem C6_join_only_in_handlers_and_own_notification_does_not_wait
    (manager : BottleManager) (machine_menu : Option Nat) (es : List Event) (s : State)
    (h : run es (fresh manager machine_menu) = .ok s) :
    (∀ a s1, on_new_bottle s a = .ok s1 → joins s1.trace = joins s.trace) ∧
    (∀ u s1, on_update_bottle s u = .ok s1 → joins s1.trace = joins s.trace) ∧
    (∀ tid, joins (worker_finish tid s).trace = joins s.trace) ∧
    ∀ n rest t s1, s.pending = n :: rest → s.thread_bottle_manager_ = some t →
      n.origin = some t.id → dispatch s = .ok s1 →
      ∃ tl, s1.trace = s.trace ++ [Effect.thread_join t.id false, Effect.thread_delete t.id]
        ++ tl ∧ joins tl = [] := by
  have hq := run_queue_inv es _ s (fresh_queue_inv manager machine_menu) h
  have hi := run_inv es _ s (fresh_inv manager machine_menu) h
  refine ⟨?_, ?_, ?_, ?_⟩
  · intro a s1 hs
    rcases on_new_bottle_ok s s1 a hs with ⟨_, rfl⟩ | ⟨_, _, rfl⟩
    · exact joins_append_single _ _ rfl
    · exact joins_append_single _ _ rfl
  · intro u s1 hs
    rcases on_update_bottle_ok s s1 u hs with ⟨_, rfl⟩ | ⟨_, _, rfl⟩
    · exact joins_append_single _ _ rfl
    · exact joins_append_single _ _ rfl
  · intro tid
    rw [worker_finish_trace]
  · intro n rest t s1 hp ht ho hd
    have hrun : running_in t.id s.workers = false := (hq.2 n (by rw [hp]; simp) t.id ho).2
    have hjoin : t.joinable = true := hi.2 t ht
    unfold dispatch at hd
    rw [hp] at hd
    simp only at hd
    obtain ⟨tl, htl, hj⟩ := bound_handler_trace n.kind _ _ hd
    refine ⟨tl, ?_, hj⟩
    rw [htl, cleanup_trace_of_not_running { s with pending := rest } t ht hjoin hrun]

theorem C6_join_only_in_handlers_and_own_notification_does_not_wait_witness :
    run [Event.set_main_window (some 1), Event.on_new_bottle sample_create,
      Event.worker_finish 0] (fresh sample_manager none) = .ok sample_signalled ∧
    ∃ s1, dispatch sample_signalled = .ok s1 ∧
      ∃ tl, s1.trace = sample_signalled.trace ++
        [Effect.thread_join 0 false, Effect.thread_delete 0] ++ tl ∧ joins tl = [] :=
  ⟨rfl, _, rfl,
    (C6_join_only_in_handlers_and_own_notification_does_not_wait sample_manager none
      [Event.set_main_window (some 1), Event.on_new_bottle sample_create,
        Event.worker_finish 0] sample_signalled rfl).2.2.2
      ⟨Dispatcher.bottle_created, some 0⟩ [] ⟨0, true⟩ _ rfl rfl rfl rfl⟩

/-- Claim C7, what the code does: the only task that ever failed is create task 0, whose text
"no name given" is shown when its own error notification is handled.  Later an update request
arrives while update task 1 is in flight; `on_update_bottle` emits the error-updated
notifier itself, and the error handler that it triggers shows "no name given" once more,
although task 1 succeeds and no failing task signalled. -/
theorem C7_error_handler_runs_without_failing_task :
    ∃ s,
      run stale_message_run (fresh sample_manager none) = .ok s ∧
      sample_manager.update_bottle sample_update = none ∧
      s.trace = [Effect.thread_new 0 (Task.new_bottle sample_create_failing),
        Effect.thread_join 0 false, Effect.thread_delete 0,
        Effect.show_error_message "no name given",
        Effect.main_window_on_new_bottle_created,
        Effect.thread_new 1 (Task.update_bottle sample_update),
        Effect.show_error_message busy_message,
        Effect.thread_join 1 true, Effect.thread_delete 1,
        Effect.show_error_message "no name given"] ∧
      s.pending =
        [⟨Dispatcher.bottle_updated, some 1⟩, ⟨Dispatcher.bottle_updated, none⟩] :=
  ⟨_, rfl, rfl, rfl, rfl⟩

/-- Claim C8 fails as stated: when the failure of a create task is handled, the handler
signals the bottle-created notifier, and its delivery tells the main window that a bottle was
created, which closes the wizard. -/
theorem C8_error_handler_signals_bottle_created :
    ∃ s s1,
      run failed_create_run (fresh sample_manager none) = .ok s ∧
      s.trace = [Effect.thread_new 0 (Task.new_bottle sample_create_failing),
        Effect.thread_join 0 false, Effect.thread_delete 0,
        Effect.show_error_message "no name given"] ∧
      s.pending = [⟨Dispatcher.bottle_created, none⟩] ∧
      dispatch s = .ok s1 ∧
      s1.trace = s.trace ++ [Effect.main_window_on_new_bottle_created] :=
  ⟨_, _, rfl, rfl, rfl, rfl, rfl⟩

/-- Claim C8 as amended: from every state with the main window bound,
`on_error_message_created` returns; after retiring the slot it signals the bottle-created
notifier exactly once (the signal that closes the wizard) and then shows the manager's error
text in a message dialog, and the slot is empty afterwards. -/
theorem C8_error_handler_closes_wizard_and_shows_text (s : State)
    (hm : s.main_window_ ≠ none) :
    ∃ s1, on_error_message_created s = .ok s1 ∧
      s1.pending = (cleanup_bottle_manager_thread s).pending ++
        [⟨Dispatcher.bottle_created, none⟩] ∧
      s1.trace = (cleanup_bottle_manager_thread s).trace ++
        [Effect.show_error_message (cleanup_bottle_manager_thread s).manager_.get_error_message] ∧
      s1.thread_bottle_manager_ = none := by
  have hc : (emit Dispatcher.bottle_created none
      (cleanup_bottle_manager_thread s)).main_window_ ≠ none := by
    simp only [emit]
    rw [cleanup_main_window]
    exact hm
  refine ⟨_, show_error_message_returns _ _ hc, rfl, rfl, ?_⟩
  exact cleanup_slot s

theorem C8_error_handler_closes_wizard_and_shows_text_witness :
    sample_signalled.main_window_ ≠ none ∧
    ∃ s1, on_error_message_created sample_signalled = .ok s1 ∧
      s1.pending = (cleanup_bottle_manager_thread sample_signalled).pending ++
        [⟨Dispatcher.bottle_created, none⟩] ∧
      s1.trace = (cleanup_bottle_manager_thread sample_signalled).trace ++
        [Effect.show_error_message
          (cleanup_bottle_manager_thread sample_signalled).manager_.get_error_message] ∧
      s1.thread_bottle_manager_ = none :=
  ⟨by simp [sample_signalled],
    C8_error_handler_closes_wizard_and_shows_text sample_signalled (by simp [sample_signalled])⟩

/-- Claim C9: `on_mouse_button_pressed` reports the event as handled exactly when it is a
single press (`GDK_BUTTON_PRESS`) of button 3; on every other event it returns false and
leaves the state as it was, so no menu is opened; and the result is the same for any two
events with the same type and button, whatever their coordinates, times and the controller
states. -/
theorem C9_only_single_right_press_is_handled (s : State) (event : GdkEventButton) :
    ((on_mouse_button_pressed s event).1 = true ↔
      (event.type = GDK_BUTTON_PRESS ∧ event.button = 3)) ∧
    (¬ (event.type = GDK_BUTTON_PRESS ∧ event.button = 3) →
      on_mouse_button_pressed s event = (false, s)) ∧
    (∀ (s2 : State) (event2 : GdkEventButton),
      event2.type = event.type → event2.button = event.button →
      (on_mouse_button_pressed s2 event2).1 = (on_mouse_button_pressed s event).1) ∧
    (on_mouse_button_pressed s
      ⟨GDK_BUTTON_PRESS, 1, event.time, event.x, event.y⟩).1 = false ∧
    (on_mouse_button_pressed s
      ⟨GDK_BUTTON_PRESS, 2, event.time, event.x, event.y⟩).1 = false ∧
    (on_mouse_button_pressed s
      ⟨GDK_2BUTTON_PRESS, 3, event.time, event.x, event.y⟩).1 = false ∧
    (on_mouse_button_pressed s
      ⟨GDK_3BUTTON_PRESS, 3, event.time, event.x, event.y⟩).1 = false ∧
    (on_mouse_button_pressed s
      ⟨GDK_BUTTON_RELEASE, 3, event.time, event.x, event.y⟩).1 = false ∧
    (on_mouse_button_pressed s
      ⟨GDK_BUTTON_PRESS, 3, event.time, event.x, event.y⟩).1 = true := by
  have key : ∀ (s0 : State) (e0 : GdkEventButton),
      (on_mouse_button_pressed s0 e0).1 = true ↔
        (e0.type = GDK_BUTTON_PRESS ∧ e0.button = 3) := by
    intro s0 e0
    unfold on_mouse_button_pressed
    by_cases hc : e0.type = GDK_BUTTON_PRESS ∧ e0.button = 3
    · rw [if_pos hc]
      cases s0.machine_menu <;> simp [hc]
    · rw [if_neg hc]
      simp [hc]
  refine ⟨key s event, ?_, ?_, ?_, ?_, ?_, ?_, ?_, ?_⟩
  · intro hc
    unfold on_mouse_button_pressed
    rw [if_neg hc]
  · intro s2 event2 ht hb
    have h1 := key s event
    have h2 := key s2 event2
    rw [ht, hb] at h2
    cases hv : (on_mouse_button_pressed s event).1
    · cases hv2 : (on_mouse_button_pressed s2 event2).1
      · rfl
      · rw [hv] at h1
        exact absurd (h1.mpr (h2.mp hv2)) (by simp)
    · exact h2.mpr (h1.mp hv)
  · simp [on_mouse_button_pressed]
  · simp [on_mouse_button_pressed]
  · simp [on_mouse_button_pressed, GDK_2BUTTON_PRESS, GDK_BUTTON_PRESS]
  · simp [on_mouse_button_pressed, GDK_3BUTTON_PRESS, GDK_BUTTON_PRESS]
  · simp [on_mouse_button_pressed, GDK_BUTTON_RELEASE, GDK_BUTTON_PRESS]
  · exact (key s _).mpr ⟨rfl, rfl⟩

theorem thread_join_trace (tid : Nat) (s : State) :
    (thread_join tid s).trace = s.trace ++ [Effect.thread_join tid (still_running tid s)] := by
  simp only [thread_join, worker_finish_trace]

theorem cleanup_trace (s : State) (t : Thread) (ht : s.thread_bottle_manager_ = some t) :
    (cleanup_bottle_manager_thread s).trace =
      s.trace ++ (if t.joinable then [Effect.thread_join t.id (still_running t.id s)] else [])
        ++ [Effect.thread_delete t.id] := by
  unfold cleanup_bottle_manager_thread
  rw [ht]
  by_cases hj : t.joinable = true
  · simp only [hj, if_true, thread_join_trace]
  · simp only [hj, Bool.false_eq_true, if_false, List.append_nil]

theorem cleanup_of_empty (s : State) (ht : s.thread_bottle_manager_ = none) :
    cleanup_bottle_manager_thread s = s := by
  unfold cleanup_bottle_manager_thread
  rw [ht]

theorem cleanup_created_calls (s : State) :
    created_calls (cleanup_bottle_manager_thread s).trace = created_calls s.trace := by
  cases ht : s.thread_bottle_manager_ with
  | none => rw [cleanup_of_empty s ht]
  | some t =>
    rw [cleanup_trace s t ht]
    by_cases hj : t.joinable = true <;> simp [created_calls, hj]

/-- Claim C12: `set_main_window` stores the given pointer when no main window is bound yet;
on every call made while a main window is bound it takes the `g_error` branch, which ends
the process, so no state with a replaced main window results. -/
theorem C12_set_main_window_binds_once (s : State) (p : Option Nat) :
    (s.main_window_ = none →
      set_main_window s p = .ok { s with main_window_ := p }) ∧
    (∀ q, s.main_window_ = some q →
      set_main_window s p = .error Fault.g_error ∧
      ∀ s1, set_main_window s p ≠ .ok s1) := by
  refine ⟨?_, ?_⟩
  · intro h
    unfold set_main_window
    rw [h]
  · intro q h
    unfold set_main_window
    rw [h]
    exact ⟨rfl, fun s1 hs => by cases hs⟩

theorem C12_set_main_window_binds_once_witness :
    (fresh sample_manager none).main_window_ = none ∧
    set_main_window (fresh sample_manager none) (some 1) =
      .ok { fresh sample_manager none with main_window_ := some 1 } ∧
    sample_busy.main_window_ = some 1 ∧
    set_main_window sample_busy (some 2) = .error Fault.g_error :=
  ⟨rfl, (C12_set_main_window_binds_once (fresh sample_manager none) (some 1)).1 rfl, rfl,
    ((C12_set_main_window_binds_once sample_busy (some 2)).2 1 rfl).1⟩

/-- Claim C13: on an occupied slot `cleanup_bottle_manager_thread` joins the held thread when
it is joinable, then deletes the handle, and leaves the slot empty; on an empty slot it
changes nothing, so a second call changes nothing; the destructor is exactly this cleanup;
and in every state reached by a run the held thread is joinable, so that after the
destructor no started thread is unjoined. -/
theorem C13_join_before_teardown (manager : BottleManager) (machine_menu : Option Nat)
    (es : List Event) (s : State) (h : run es (fresh manager machine_menu) = .ok s) :
    (∀ (s0 : State) (t : Thread), s0.thread_bottle_manager_ = some t →
      (cleanup_bottle_manager_thread s0).trace =
        s0.trace ++
          (if t.joinable then [Effect.thread_join t.id (still_running t.id s0)] else [])
          ++ [Effect.thread_delete t.id] ∧
      (cleanup_bottle_manager_thread s0).thread_bottle_manager_ = none) ∧
    (∀ s0 : State, s0.thread_bottle_manager_ = none → cleanup_bottle_manager_thread s0 = s0) ∧
    (∀ s0 : State, cleanup_bottle_manager_thread (cleanup_bottle_manager_thread s0) =
      cleanup_bottle_manager_thread s0) ∧
    (∀ s0 : State, destructor s0 = cleanup_bottle_manager_thread s0) ∧
    (∀ t, s.thread_bottle_manager_ = some t → t.joinable = true) ∧
    (destructor s).thread_bottle_manager_ = none ∧
    unjoined (destructor s) = [] := by
  have hinv := run_inv es _ s (fresh_inv manager machine_menu) h
  refine ⟨fun s0 t ht => ⟨cleanup_trace s0 t ht, cleanup_slot s0⟩, cleanup_of_empty,
    fun s0 => cleanup_of_empty _ (cleanup_slot s0), fun _ => rfl, hinv.2, cleanup_slot s, ?_⟩
  have hall := all_joined_of_empty_slot _ (cleanup_inv s hinv) (cleanup_slot s)
  unfold unjoined destructor
  rw [List.filter_eq_nil_iff]
  intro w hw
  simp [hall w hw]

theorem C13_join_before_teardown_witness :
    run [Event.set_main_window (some 1), Event.on_new_bottle sample_create]
      (fresh sample_manager none) = .ok sample_busy ∧
    (destructor sample_busy).trace = sample_busy.trace ++
      [Effect.thread_join 0 true, Effect.thread_delete 0] ∧
    (destructor sample_busy).thread_bottle_manager_ = none ∧
    unjoined (destructor sample_busy) = [] :=
  ⟨rfl, rfl,
    (C13_join_before_teardown sample_manager none
      [Event.set_main_window (some 1), Event.on_new_bottle sample_create]
      sample_busy rfl).2.2.2.2.2.1,
    (C13_join_before_teardown sample_manager none
      [Event.set_main_window (some 1), Event.on_new_bottle sample_create]
      sample_busy rfl).2.2.2.2.2.2⟩

/-- Claim C14: from every state `on_bottle_updated` returns; it first retires the task slot,
then the edit window hides its busy dialog and after that hides itself, and then the bottle
list is refreshed once through `update_config_and_bottles(false)`.  Nothing else is done: the
main window is not told that a bottle was created and the handler emits no notification. -/
theorem C14_on_bottle_updated_sequence (s : State) :
    ∃ s1, on_bottle_updated s = .ok s1 ∧
      s1.trace = (cleanup_bottle_manager_thread s).trace ++
        [Effect.busy_dialog_hide, Effect.edit_window_hide,
          Effect.update_config_and_bottles false] ∧
      s1.thread_bottle_manager_ = none ∧
      s1.workers = (cleanup_bottle_manager_thread s).workers ∧
      s1.pending = (cleanup_bottle_manager_thread s).pending ∧
      created_calls s1.trace = created_calls s.trace ∧
      (s1.trace.drop s.trace.length).count (Effect.update_config_and_bottles false) = 1 ∧
      (s1.trace.drop s.trace.length).count (Effect.update_config_and_bottles true) = 0 := by
  have htr : (update_config_and_bottles false
      (edit_window_on_bottle_updated (cleanup_bottle_manager_thread s))).trace =
      (cleanup_bottle_manager_thread s).trace ++
        [Effect.busy_dialog_hide, Effect.edit_window_hide,
          Effect.update_config_and_bottles false] := by
    simp [update_config_and_bottles, edit_window_on_bottle_updated]
  refine ⟨_, rfl, htr, cleanup_slot s, rfl, rfl, ?_, ?_, ?_⟩
  · rw [htr]
    have hc := cleanup_created_calls s
    simp only [created_calls] at hc ⊢
    simp [List.count_append, hc]
  · rw [htr]
    cases ht : s.thread_bottle_manager_ with
    | none => simp [cleanup_of_empty s ht]
    | some t =>
      rw [cleanup_trace s t ht]
      by_cases hj : t.joinable = true <;> simp [hj, List.count_cons]
  · rw [htr]
    cases ht : s.thread_bottle_manager_ with
    | none => simp [cleanup_of_empty s ht]
    | some t =>
      rw [cleanup_trace s t ht]
      by_cases hj : t.joinable = true <;> simp [hj, List.count_cons]

end SignalController

namespace BottleEditWindow

theorem stoi_error_caught (str : String) (e : StdException) (h : stoi str = .error e) :
    caught e = true := by
  unfold stoi at h
  simp only at h
  split_ifs at h <;> cases h <;> rfl

theorem vector_at_error_caught {α : Type} (v : List α) (i : Nat) (e : StdException)
    (h : vector_at v i = .error e) : caught e = true := by
  unfold vector_at at h
  split at h
  · cases h
  · cases h
    rfl

theorem try_catch_returns {α : Type} (body : Except StdException α) (kept : α)
    (hc : ∀ e, body = .error e → caught e = true) : ∃ v, try_catch body kept = .ok v := by
  unfold try_catch
  cases hb : body with
  | ok a => exact ⟨a, rfl⟩
  | error e => exact ⟨kept, by simp [hc e hb]⟩

theorem try_catch_keeps {α : Type} (body : Except StdException α) (kept : α)
    (e : StdException) (hb : body = .error e) (hc : caught e = true) :
    try_catch body kept = .ok kept := by
  unfold try_catch
  rw [hb]
  simp [hc]

theorem stoi_block_caught {α : Type} (str : String) (f : Int → Except StdException α)
    (hf : ∀ n e, f n = .error e → caught e = true) (e : StdException)
    (h : (stoi str >>= f) = .error e) : caught e = true := by
  cases hs : stoi str with
  | error e1 =>
    rw [hs] at h
    simp only [bind, Except.bind, Except.error.injEq] at h
    rw [← h]
    exact stoi_error_caught str e1 hs
  | ok n =>
    rw [hs] at h
    exact hf n e h

/-- Claim C10: whenever the active id of the log-level selector does not parse as an integer
(`std::stoi` throws), `on_save_button_clicked` lets no exception escape, disables the save
button, shows the busy dialog, and emits `update_bottle` with `debug_log_level = 1` and the
name, folder name and description of the form. -/
theorem C10_unparsable_log_level_falls_back_to_one (bt : BottleTypes) (w : BottleEditWindow)
    (e : StdException) (h : stoi w.log_level_combobox.get_active_id = .error e) :
    ∃ w1 r, on_save_button_clicked bt w = .ok (w1, r) ∧
      r.debug_log_level = 1 ∧
      r.name = w.name_entry ∧ r.folder_name = w.folder_name_entry ∧
      r.description = w.description_text_view ∧
      w1.save_button_sensitive = false ∧ w1.busy_dialog_visible = true := by
  have h1 : try_catch (stoi w.log_level_combobox.get_active_id) (1 : Int) = .ok 1 :=
    try_catch_keeps _ _ e h (stoi_error_caught _ e h)
  obtain ⟨v2, h2⟩ := try_catch_returns
    (stoi w.windows_version_combobox.get_active_id >>= fun n =>
      vector_at bt.SupportedWindowsVersions (to_size_t n) >>= fun cur => pure cur.1)
    bt.WindowsOs
    (fun e2 he2 => stoi_block_caught _ _ (fun n e3 he3 => by
      cases hv : vector_at bt.SupportedWindowsVersions (to_size_t n) with
      | error e4 =>
        rw [hv] at he3
        simp only [bind, Except.bind, Except.error.injEq] at he3
        rw [← he3]
        exact vector_at_error_caught _ _ e4 hv
      | ok cur =>
        rw [hv] at he3
        simp [bind, Except.bind, pure, Except.pure] at he3) e2 he2)
  obtain ⟨v3, h3⟩ := try_catch_returns
    (stoi w.audio_driver_combobox.get_active_id >>= fun n =>
      (pure (to_AudioDriver (to_size_t n)) : Except StdException Int))
    bt.AudioDriver
    (fun e2 he2 => stoi_block_caught _ _ (fun n e3 he3 => by
      simp [pure, Except.pure] at he3) e2 he2)
  have hall : on_save_button_clicked bt w =
      (try_catch (stoi w.log_level_combobox.get_active_id) (1 : Int) >>= fun d =>
        try_catch (stoi w.windows_version_combobox.get_active_id >>= fun n =>
          vector_at bt.SupportedWindowsVersions (to_size_t n) >>= fun cur => pure cur.1)
          bt.WindowsOs >>= fun v =>
        try_catch (stoi w.audio_driver_combobox.get_active_id >>= fun n =>
          (pure (to_AudioDriver (to_size_t n)) : Except StdException Int))
          bt.AudioDriver >>= fun a =>
        pure ({ w with
            save_button_sensitive := false
            busy_dialog_message :=
              ("Updating Windows Machine", "Busy applying all your changes currently.")
            busy_dialog_visible := true },
          ⟨w.name_entry, w.folder_name_entry, w.description_text_view, v,
            if w.virtual_desktop_check then w.virtual_desktop_resolution_entry else "",
            a, d⟩)) := rfl
  rw [hall, h1, h2, h3]
  exact ⟨_, _, rfl, rfl, rfl, rfl, rfl, rfl, rfl⟩

theorem C10_unparsable_log_level_falls_back_to_one_witness :
    stoi sample_window_abc.log_level_combobox.get_active_id =
      .error StdException.invalid_argument ∧
    stoi "abc" = .error StdException.invalid_argument ∧
    stoi "" = .error StdException.invalid_argument ∧
    ∃ w1 r, on_save_button_clicked sample_bottle_types sample_window_abc = .ok (w1, r) ∧
      r.debug_log_level = 1 ∧
      r.name = sample_window_abc.name_entry ∧
      r.folder_name = sample_window_abc.folder_name_entry ∧
      r.description = sample_window_abc.description_text_view ∧
      w1.save_button_sensitive = false ∧ w1.busy_dialog_visible = true :=
  ⟨rfl, rfl, rfl,
    C10_unparsable_log_level_falls_back_to_one sample_bottle_types sample_window_abc
      StdException.invalid_argument rfl⟩

theorem digit_char_toNat (d : Nat) (hd : d < 10) : (Char.ofNat (48 + d)).toNat = 48 + d := by
  interval_cases d <;> rfl

theorem digit_char_isdigit (d : Nat) (hd : d < 10) : isdigit (Char.ofNat (48 + d)) = true := by
  interval_cases d <;> rfl

theorem decimal_digits_spec (fuel : Nat) :
    ∀ (n : Nat) (acc : List Char), n < fuel → (∀ c ∈ acc, isdigit c = true) →
      (∀ c ∈ decimal_digits fuel n acc, isdigit c = true) ∧
      decimal_digits fuel n acc ≠ [] ∧
      (decimal_digits fuel n acc).foldl (fun v c => 10 * v + (c.toNat - 48)) 0 =
        acc.foldl (fun v c => 10 * v + (c.toNat - 48)) n := by
  induction fuel with
  | zero =>
    intro n acc hn
    exact absurd hn (Nat.not_lt_zero n)
  | succ k ih =>
    intro n acc hn hacc
    have hlt : n % 10 < 10 := Nat.mod_lt n (by decide)
    have hall : ∀ c ∈ Char.ofNat (48 + n % 10) :: acc, isdigit c = true := by
      intro c hc
      rcases List.mem_cons.mp hc with rfl | hc
      · exact digit_char_isdigit _ hlt
      · exact hacc c hc
    unfold decimal_digits
    by_cases h0 : n / 10 = 0
    · rw [if_pos h0]
      refine ⟨hall, by simp, ?_⟩
      have hn10 : n % 10 = n := Nat.mod_eq_of_lt (by omega)
      simp only [List.foldl_cons, digit_char_toNat _ hlt]
      congr 1
      omega
    · rw [if_neg h0]
      obtain ⟨h1, h2, h3⟩ := ih (n / 10) (Char.ofNat (48 + n % 10) :: acc) (by omega) hall
      refine ⟨h1, h2, ?_⟩
      rw [h3]
      simp only [List.foldl_cons, digit_char_toNat _ hlt]
      congr 1
      omega

theorem isdigit_bounds (c : Char) (h : isdigit c = true) : 48 ≤ c.toNat ∧ c.toNat ≤ 57 := by
  simpa [isdigit] using h

theorem stoi_of_digits (r : List Char) (hne : r ≠ []) (hall : ∀ c ∈ r, isdigit c = true) :
    stoi (String.mk r) =
      if (2147483647 : Int) < (digits_value r : Int) then .error StdException.out_of_range
      else .ok (digits_value r : Int) := by
  cases r with
  | nil => exact absurd rfl hne
  | cons c rest =>
    have hc := isdigit_bounds c (hall c (List.mem_cons_self _ _))
    have hdrop : (String.mk (c :: rest)).toList.dropWhile isspace = c :: rest := by
      have hsp : isspace c = false := by
        simp only [isspace, Bool.or_eq_false_iff, Bool.and_eq_false_iff, decide_eq_false_iff_not]
        omega
      simp [List.dropWhile_cons, hsp]
    have hsign : take_sign (c :: rest) = (false, c :: rest) := by
      have h45 : c.toNat ≠ 45 := by omega
      have h43 : c.toNat ≠ 43 := by omega
      simp [take_sign, h45, h43]
    have htake : (c :: rest).takeWhile isdigit = c :: rest := by
      rw [List.takeWhile_eq_self_iff]
      exact hall
    unfold stoi
    simp only [hdrop, hsign, htake, List.isEmpty_cons, Bool.false_eq_true, if_false]
    by_cases hbig : (2147483647 : Int) < (digits_value (c :: rest) : Int)
    · simp [hbig]
    · have hlow : ¬ ((digits_value (c :: rest) : Int) < -2147483648) := by omega
      simp [hbig, hlow]

theorem to_string_nat (n : Nat) :
    to_string (n : Int) = String.mk (decimal_digits (n + 1) n []) := by
  unfold to_string
  have h : ¬ ((n : Int) < 0) := by omega
  simp [h]

theorem stoi_to_string_nat (n : Nat) :
    stoi (to_string (n : Int)) =
      if 2147483647 < n then .error StdException.out_of_range else .ok (n : Int) := by
  obtain ⟨h1, h2, h3⟩ := decimal_digits_spec (n + 1) n [] (Nat.lt_succ_self n)
    (fun c hc => by cases hc)
  rw [to_string_nat, stoi_of_digits _ h2 h1]
  have hv : digits_value (decimal_digits (n + 1) n []) = n := by
    unfold digits_value
    rw [h3]
    rfl
  rw [hv]
  by_cases hbig : 2147483647 < n
  · have : (2147483647 : Int) < (n : Int) := by omega
    simp [hbig, this]
  · have : ¬ (2147483647 : Int) < (n : Int) := by omega
    simp [hbig, this]

theorem stoi_range (str : String) (n : Int) (h : stoi str = .ok n) :
    -2147483648 ≤ n ∧ n ≤ 2147483647 := by
  unfold stoi at h
  simp only at h
  split_ifs at h <;> simp only [Except.ok.injEq] at h <;> omega

theorem to_size_t_of_nonneg (n : Int) (h0 : 0 ≤ n) (h1 : n ≤ 2147483647) :
    to_size_t n = n.toNat := by
  unfold to_size_t
  omega

theorem to_size_t_of_neg (n : Int) (h0 : n < 0) (h1 : -2147483648 ≤ n) :
    18446744071562067968 ≤ to_size_t n := by
  unfold to_size_t
  omega

theorem to_AudioDriver_to_size_t (n : Int) (h0 : -2147483648 ≤ n) (h1 : n ≤ 2147483647) :
    to_AudioDriver (to_size_t n) = n := by
  unfold to_AudioDriver to_size_t
  simp only
  split_ifs <;> omega

/-- What `on_save_button_clicked` emits, selector by selector: it always returns, and each of
the three parsed values is either what its own `try` block computed or the fallback. -/
theorem on_save_button_clicked_result (bt : BottleTypes) (w : BottleEditWindow) :
    ∃ w1 r, on_save_button_clicked bt w = .ok (w1, r) ∧
      r.debug_log_level =
        (match stoi w.log_level_combobox.get_active_id with
          | .ok n => n
          | .error _ => 1) ∧
      r.windows_version =
        (match stoi w.windows_version_combobox.get_active_id with
          | .ok n =>
            (match bt.SupportedWindowsVersions.get? (to_size_t n) with
              | some entry => entry.1
              | none => bt.WindowsOs)
          | .error _ => bt.WindowsOs) ∧
      r.audio =
        (match stoi w.audio_driver_combobox.get_active_id with
          | .ok n => to_AudioDriver (to_size_t n)
          | .error _ => bt.AudioDriver) := by
  have e1 : try_catch (stoi w.log_level_combobox.get_active_id) (1 : Int) =
      .ok (match stoi w.log_level_combobox.get_active_id with
        | .ok n => n
        | .error _ => 1) := by
    cases h : stoi w.log_level_combobox.get_active_id with
    | ok n => rfl
    | error e => simp [try_catch, stoi_error_caught _ e h]
  have e2 : try_catch (stoi w.windows_version_combobox.get_active_id >>= fun n =>
        vector_at bt.SupportedWindowsVersions (to_size_t n) >>= fun cur => pure cur.1)
        bt.WindowsOs =
      .ok (match stoi w.windows_version_combobox.get_active_id with
        | .ok n =>
          (match bt.SupportedWindowsVersions.get? (to_size_t n) with
            | some entry => entry.1
            | none => bt.WindowsOs)
        | .error _ => bt.WindowsOs) := by
    cases h : stoi w.windows_version_combobox.get_active_id with
    | error e => simp [try_catch, bind, Except.bind, stoi_error_caught _ e h]
    | ok n =>
      cases hg : bt.SupportedWindowsVersions.get? (to_size_t n) with
      | none =>
        simp only [bind, Except.bind, vector_at, hg, try_catch, caught, if_true]
      | some entry =>
        simp only [bind, Except.bind, vector_at, hg, try_catch, pure, Except.pure]
  have e3 : try_catch (stoi w.audio_driver_combobox.get_active_id >>= fun n =>
        (pure (to_AudioDriver (to_size_t n)) : Except StdException Int)) bt.AudioDriver =
      .ok (match stoi w.audio_driver_combobox.get_active_id with
        | .ok n => to_AudioDriver (to_size_t n)
        | .error _ => bt.AudioDriver) := by
    cases h : stoi w.audio_driver_combobox.get_active_id with
    | error e => simp [try_catch, bind, Except.bind, stoi_error_caught _ e h]
    | ok n => rfl
  have hall : on_save_button_clicked bt w =
      (try_catch (stoi w.log_level_combobox.get_active_id) (1 : Int) >>= fun d =>
        try_catch (stoi w.windows_version_combobox.get_active_id >>= fun n =>
          vector_at bt.SupportedWindowsVersions (to_size_t n) >>= fun cur => pure cur.1)
          bt.WindowsOs >>= fun v =>
        try_catch (stoi w.audio_driver_combobox.get_active_id >>= fun n =>
          (pure (to_AudioDriver (to_size_t n)) : Except StdException Int))
          bt.AudioDriver >>= fun a =>
        pure ({ w with
            save_button_sensitive := false
            busy_dialog_message :=
              ("Updating Windows Machine", "Busy applying all your changes currently.")
            busy_dialog_visible := true },
          ⟨w.name_entry, w.folder_name_entry, w.description_text_view, v,
            if w.virtual_desktop_check then w.virtual_desktop_resolution_entry else "",
            a, d⟩)) := rfl
  rw [hall, e1, e2, e3]
  exact ⟨_, _, rfl, rfl, rfl, rfl⟩

/-- Claim C11: whenever the active id of the Windows-version selector parses to an integer
that is negative or not below the length of `SupportedWindowsVersions` (a vector, so of at
most `PTRDIFF_MAX` entries), `on_save_button_clicked` lets no exception escape and emits
`update_bottle` with the Windows version `WineDefaults::WindowsOs`. -/
theorem C11_out_of_range_windows_index_falls_back (bt : BottleTypes) (w : BottleEditWindow)
    (n : Int) (hn : stoi w.windows_version_combobox.get_active_id = .ok n)
    (hout : n < 0 ∨ (bt.SupportedWindowsVersions.length : Int) ≤ n)
    (hsize : bt.SupportedWindowsVersions.length ≤ vector_max_size) :
    ∃ w1 r, on_save_button_clicked bt w = .ok (w1, r) ∧ r.windows_version = bt.WindowsOs := by
  obtain ⟨w1, r, hr, _, hv, _⟩ := on_save_button_clicked_result bt w
  refine ⟨w1, r, hr, ?_⟩
  have hrange := stoi_range _ n hn
  have hnone : bt.SupportedWindowsVersions.get? (to_size_t n) = none := by
    apply List.get?_len_le
    unfold vector_max_size at hsize
    rcases hout with hneg | hbig
    · have := to_size_t_of_neg n hneg hrange.1
      omega
    · have h0 : 0 ≤ n := le_trans (Int.ofNat_nonneg _) hbig
      rw [to_size_t_of_nonneg n h0 hrange.2]
      omega
  rw [hv, hn]
  simp only [hnone]

theorem C11_out_of_range_windows_index_falls_back_witness :
    stoi sample_window_out_of_range.windows_version_combobox.get_active_id = .ok 7 ∧
    sample_bottle_types.SupportedWindowsVersions.length = 3 ∧
    stoi "-1" = .ok (-1) ∧
    ∃ w1 r, on_save_button_clicked sample_bottle_types sample_window_out_of_range =
        .ok (w1, r) ∧
      r.windows_version = sample_bottle_types.WindowsOs :=
  ⟨rfl, rfl, rfl,
    C11_out_of_range_windows_index_falls_back sample_bottle_types sample_window_out_of_range 7
      rfl (Or.inr (by decide)) (by decide)⟩

/-- Claim C16: the audio driver that `on_save_button_clicked` emits is decided by the audio
selector alone.  If its active id does not parse, the record carries
`WineDefaults::AudioDriver`; if it parses to `n`, the record carries the driver with value
`n`, whether or not `n` lies in the range from `AudioDriverStart` to `AudioDriverEnd`; and
two windows with the same audio id emit the same driver, whatever their other selectors
hold. -/
theorem C16_audio_driver_depends_on_audio_selector_only (bt : BottleTypes)
    (w : BottleEditWindow) :
    (∀ e, stoi w.audio_driver_combobox.get_active_id = .error e →
      ∃ w1 r, on_save_button_clicked bt w = .ok (w1, r) ∧ r.audio = bt.AudioDriver) ∧
    (∀ n, stoi w.audio_driver_combobox.get_active_id = .ok n →
      ∃ w1 r, on_save_button_clicked bt w = .ok (w1, r) ∧ r.audio = n) ∧
    (∀ w2 : BottleEditWindow,
      w2.audio_driver_combobox.get_active_id = w.audio_driver_combobox.get_active_id →
      ∃ w1 r w3 r2, on_save_button_clicked bt w = .ok (w1, r) ∧
        on_save_button_clicked bt w2 = .ok (w3, r2) ∧ r2.audio = r.audio) := by
  obtain ⟨w1, r, hr, _, _, ha⟩ := on_save_button_clicked_result bt w
  refine ⟨?_, ?_, ?_⟩
  · intro e he
    refine ⟨w1, r, hr, ?_⟩
    rw [ha, he]
  · intro n hn
    refine ⟨w1, r, hr, ?_⟩
    have hrange := stoi_range _ n hn
    rw [ha, hn]
    exact to_AudioDriver_to_size_t n hrange.1 hrange.2
  · intro w2 hw2
    obtain ⟨w3, r2, hr2, _, _, ha2⟩ := on_save_button_clicked_result bt w2
    refine ⟨w1, r, w3, r2, hr, hr2, ?_⟩
    rw [ha2, ha, hw2]

theorem C16_audio_driver_depends_on_audio_selector_only_witness :
    stoi sample_window_out_of_range.audio_driver_combobox.get_active_id = .ok 99 ∧
    sample_bottle_types.AudioDriverEnd = 5 ∧
    stoi sample_window_out_of_range.windows_version_combobox.get_active_id = .ok 7 ∧
    (∃ w1 r, on_save_button_clicked sample_bottle_types sample_window_out_of_range =
        .ok (w1, r) ∧ r.audio = 99) ∧
    stoi sample_window.log_level_combobox.get_active_id =
      .error StdException.invalid_argument :=
  ⟨rfl, rfl, rfl,
    (C16_audio_driver_depends_on_audio_selector_only sample_bottle_types
      sample_window_out_of_range).2.1 99 rfl, rfl⟩

theorem fill_windows_versions_mem (labels : Labels) (bit : Int) (entries : List (Int × Int)) :
    ∀ (index : Nat) (c : ComboBoxText) (row : String × String),
      row ∈ (fill_windows_versions labels bit entries index c).items →
      row ∈ c.items ∨ ∃ k entry, entries.get? k = some entry ∧ entry.2 = bit ∧
        row.1 = to_string ((index + k : Nat) : Int) := by
  induction entries with
  | nil =>
    intro index c row h
    exact Or.inl h
  | cons e rest ih =>
    intro index c row h
    unfold fill_windows_versions at h
    by_cases hb : bit = e.2
    · rw [if_pos hb] at h
      rcases ih (index + 1) _ row h with hmem | ⟨k, entry, hk, hbit, hrow⟩
      · simp only [ComboBoxText.append, List.mem_append, List.mem_singleton] at hmem
        rcases hmem with hmem | hnew
        · exact Or.inl hmem
        · refine Or.inr ⟨0, e, rfl, hb.symm, ?_⟩
          rw [hnew]
          rfl
      · refine Or.inr ⟨k + 1, entry, hk, hbit, ?_⟩
        rw [hrow]
        congr 2
        omega
    · rw [if_neg hb] at h
      rcases ih (index + 1) c row h with hmem | ⟨k, entry, hk, hbit, hrow⟩
      · exact Or.inl hmem
      · refine Or.inr ⟨k + 1, entry, hk, hbit, ?_⟩
        rw [hrow]
        congr 2
        omega

theorem show_window_items (bt : BottleTypes) (labels : Labels) (w : BottleEditWindow)
    (b : BottleItem) (hb : w.active_bottle_ = some b) :
    (show_window bt labels w).windows_version_combobox =
      (fill_windows_versions labels b.bit bt.SupportedWindowsVersions 0
        w.windows_version_combobox.remove_all).set_active_text
        (labels.windows b.windows ++ " (" ++ labels.bit b.bit ++ ")") := by
  unfold show_window
  rw [hb]

/-- Claim C15: for every `SupportedWindowsVersions` table and every active bottle, each id that
`show()` appends to the Windows-version selector is the decimal index of an entry whose
bitness is the bottle's; `std::stoi` parses the id back to that index, which is in range; and
whenever that id is the active one, `on_save_button_clicked` emits exactly the Windows version
of that entry, not the fallback.  The table is a constant of `bottle_types.h`; `hlen` says
that its indices fit the `int` that `std::stoi` returns. -/
theorem C15_shown_ids_round_trip (bt : BottleTypes) (labels : Labels) (w : BottleEditWindow)
    (b : BottleItem) (hb : w.active_bottle_ = some b)
    (hlen : bt.SupportedWindowsVersions.length ≤ 2147483648) :
    ∀ row ∈ (show_window bt labels w).windows_version_combobox.items,
      ∃ (i : Nat) (entry : Int × Int),
        row.1 = to_string (i : Int) ∧
        bt.SupportedWindowsVersions.get? i = some entry ∧
        entry.2 = b.bit ∧
        stoi row.1 = .ok (i : Int) ∧
        ∀ w2 : BottleEditWindow, w2.windows_version_combobox.get_active_id = row.1 →
          ∃ w3 r, on_save_button_clicked bt w2 = .ok (w3, r) ∧
            r.windows_version = entry.1 := by
  intro row hrow
  rw [show_window_items bt labels w b hb] at hrow
  simp only [ComboBoxText.set_active_text] at hrow
  rcases fill_windows_versions_mem labels b.bit bt.SupportedWindowsVersions 0 _ row hrow with
    hmem | ⟨k, entry, hk, hbit, hid⟩
  · simp [ComboBoxText.remove_all] at hmem
  · rw [Nat.zero_add] at hid
    have hklt : k < bt.SupportedWindowsVersions.length := by
      by_contra hge
      rw [List.get?_len_le (Nat.le_of_not_lt hge)] at hk
      cases hk
    have hsmall : ¬ 2147483647 < k := by omega
    have hstoi : stoi row.1 = .ok (k : Int) := by
      rw [hid, stoi_to_string_nat k, if_neg hsmall]
    refine ⟨k, entry, hid, hk, hbit, hstoi, ?_⟩
    intro w2 hw2
    obtain ⟨w3, r, hr, _, hv, _⟩ := on_save_button_clicked_result bt w2
    refine ⟨w3, r, hr, ?_⟩
    have hsz : to_size_t (k : Int) = k := by
      rw [to_size_t_of_nonneg (k : Int) (Int.ofNat_nonneg k) (by omega)]
      exact Int.toNat_ofNat k
    rw [hv, hw2, hstoi]
    simp only [hsz, hk]

theorem C15_shown_ids_round_trip_witness :
    sample_window_bottle.active_bottle_ = some sample_bottle ∧
    sample_bottle_types.SupportedWindowsVersions = [(0, 0), (1, 0), (1, 1)] ∧
    (show_window sample_bottle_types sample_labels
      sample_window_bottle).windows_version_combobox =
      ⟨[("0", "Windows 0 (0-bit)"), ("1", "Windows 1 (0-bit)")], some 1⟩ ∧
    ∀ row ∈ (show_window sample_bottle_types sample_labels
        sample_window_bottle).windows_version_combobox.items,
      ∃ (i : Nat) (entry : Int × Int),
        row.1 = to_string (i : Int) ∧
        sample_bottle_types.SupportedWindowsVersions.get? i = some entry ∧
        entry.2 = sample_bottle.bit ∧
        stoi row.1 = .ok (i : Int) ∧
        ∀ w2 : BottleEditWindow, w2.windows_version_combobox.get_active_id = row.1 →
          ∃ w3 r, on_save_button_clicked sample_bottle_types w2 = .ok (w3, r) ∧
            r.windows_version = entry.1 :=
  ⟨rfl, rfl, rfl,
    C15_shown_ids_round_trip sample_bottle_types sample_labels sample_window_bottle
      sample_bottle rfl (by decide)⟩

end BottleEditWindow

end WineGUI
